import Mathlib

/-!
# retro3d.js : a shallow embedding of the synthwave scene

The scene of `src/js/retro3d.js` is embedded as explicit state passing over a
record of the script's globals.  JavaScript numbers are taken as exact
rationals, the clock readings of a frame (`clock.getDelta()`,
`clock.getElapsedTime()`) are inputs of `animate`, the draws of
`Math.random()` are a stream `Nat → ℚ` indexed in call order, and the library
functions the script calls (`Math.sin`, `simplex.noise2D`, `TWEEN.update`) are
fields of an environment record, so every definition stays executable.
-/

namespace Retro3d

/-! ## Configuration and the data model -/

/-- The fields of the `CONF` literal that the modelled code reads. -/
structure Config where
  speed : ℚ
  roadWidth : ℚ
  palmCount : Nat
  archCount : Nat
  cityBlockCount : Nat

/-- The `CONF` object of the script. -/
def CONF : Config :=
  { speed := 60, roadWidth := 25, palmCount := 12, archCount := 8, cityBlockCount := 80 }

/-- A `THREE.Vector3` (also used for Euler angles). -/
structure Vector3 where
  x : ℚ
  y : ℚ
  z : ℚ
deriving DecidableEq

/-- The transform fields of a `THREE.Object3D` (mesh or group); children,
geometry and material handles play no part in the update loop. -/
structure Object3D where
  position : Vector3 := ⟨0, 0, 0⟩
  rotation : Vector3 := ⟨0, 0, 0⟩
  scale : Vector3 := ⟨1, 1, 1⟩
deriving DecidableEq

/-- A `THREE.BufferAttribute` of item size 3: `count` vertices, read by index. -/
structure BufferAttribute where
  count : Nat
  vertex : Nat → Vector3

namespace BufferAttribute

/-- `attr.getX(i)`. -/
def getX (b : BufferAttribute) (i : Nat) : ℚ := (b.vertex i).x

/-- `attr.getY(i)`. -/
def getY (b : BufferAttribute) (i : Nat) : ℚ := (b.vertex i).y

/-- `attr.getZ(i)`. -/
def getZ (b : BufferAttribute) (i : Nat) : ℚ := (b.vertex i).z

/-- `attr.setZ(i, v)`: overwrite the third component of vertex `i`. -/
def setZ (b : BufferAttribute) (i : Nat) (v : ℚ) : BufferAttribute :=
  { b with vertex := fun j => if j = i then { b.vertex j with z := v } else b.vertex j }

/-- The effect of `geometry.rotateX(θ)` on the position attribute, with
`c = cos θ` and `s = sin θ`: every vertex is multiplied by the rotation matrix
`[[1,0,0],[0,c,-s],[0,s,c]]`. -/
def applyRotationX (c s : ℚ) (b : BufferAttribute) : BufferAttribute :=
  { b with vertex := fun j =>
      let v := b.vertex j
      ⟨v.x, c * v.y - s * v.z, s * v.y + c * v.z⟩ }

end BufferAttribute

/-- The position attribute of `new THREE.PlaneGeometry(width, height, gridX, gridY)`:
vertex `iy * (gridX + 1) + ix` is `(ix * width / gridX - width / 2,
-(iy * height / gridY - height / 2), 0)`. -/
def PlaneGeometry (width height : ℚ) (gridX gridY : Nat) : BufferAttribute :=
  { count := (gridX + 1) * (gridY + 1)
    vertex := fun i =>
      if i < (gridX + 1) * (gridY + 1) then
        let ix := i % (gridX + 1)
        let iy := i / (gridX + 1)
        let x := (ix : ℚ) * (width / gridX) - width / 2
        let y := (iy : ℚ) * (height / gridY) - height / 2
        ⟨x, -y, 0⟩
      else ⟨0, 0, 0⟩ }

/-- The mesh `gridPlane`: its geometry's position attribute, the clone kept in
`userData.originalPos`, and the mesh position. -/
structure GridPlane where
  position : BufferAttribute
  originalPos : BufferAttribute
  meshPosition : Vector3

/-- World coordinates of vertex `i` of the grid: the mesh is neither rotated
nor scaled, so the mesh position is added to the buffer vertex. -/
def GridPlane.world (g : GridPlane) (i : Nat) : Vector3 :=
  ⟨g.meshPosition.x + g.position.getX i, g.meshPosition.y + g.position.getY i,
   g.meshPosition.z + g.position.getZ i⟩

/-- A method call received by a `THREE.Audio`; `play` records whether the sound
was playing when the call arrived. -/
inductive AudioCall where
  | play (wasPlaying : Bool)
  | stop
  | pause
  | setVolume (v : ℚ)
deriving DecidableEq

/-- The fields of a `THREE.Audio` the script reads or drives, with the log of
the calls it received (most recent first). -/
structure Audio where
  isPlaying : Bool := false
  buffer : Bool := false
  loop : Bool := false
  volume : ℚ := 1
  calls : List AudioCall := []
deriving DecidableEq

namespace Audio

/-- `audio.play()`: the sound is playing afterwards. -/
def play (a : Audio) : Audio :=
  { a with isPlaying := true, calls := AudioCall.play a.isPlaying :: a.calls }

/-- `audio.stop()`: the sound is not playing afterwards. -/
def stop (a : Audio) : Audio :=
  { a with isPlaying := false, calls := AudioCall.stop :: a.calls }

/-- `audio.pause()`: the sound is not playing afterwards. -/
def pause (a : Audio) : Audio :=
  { a with isPlaying := false, calls := AudioCall.pause :: a.calls }

/-- `audio.setVolume(v)`. -/
def setVolume (a : Audio) (v : ℚ) : Audio :=
  { a with volume := v, calls := AudioCall.setVolume v :: a.calls }

/-- `audio.setBuffer(buffer)`. -/
def setBuffer (a : Audio) : Audio := { a with buffer := true }

/-- `audio.setLoop(flag)`. -/
def setLoop (a : Audio) (flag : Bool) : Audio := { a with loop := flag }

end Audio

/-- The easing curves named in the script. -/
inductive Easing where
  | Linear
  | CircularOut
deriving DecidableEq

/-- A tween on `tronBeam.material.opacity` as `fireTronBeam` starts it: target
value, duration in ms, easing, and what `onComplete` schedules (a delay in ms,
then a linear tween to a target over a duration). -/
structure Tween where
  toOpacity : ℚ
  duration : Nat
  easing : Easing
  onComplete : Option (Nat × ℚ × Nat)
deriving DecidableEq

/-- A DOM toggle button: whether its class list holds `off`, and its text. -/
structure Button where
  off : Bool
  innerText : String
deriving DecidableEq

/-- The globals of the script that the modelled functions read or write. -/
structure State where
  cityBlocks : List Object3D
  palms : List Object3D
  arches : List Object3D
  gridPlane : Option GridPlane
  car : Option Object3D
  tronBeam : Option ℚ
  tweens : List Tween
  audioListener : Option Bool
  bgMusic : Option Audio
  sfxBeam : Option Audio
  sfxHover : Option Audio
  musicPlaying : Bool
  soundEnabled : Bool
  musicToggle : Button
  soundToggle : Button

/-- The library functions the script calls. -/
structure Env where
  sin : ℚ → ℚ
  noise2D : ℚ → ℚ → ℚ
  tweenUpdate : ℚ → List Tween → ℚ × List Tween

/-- The state when the script has been loaded and `init` has not run yet:
the arrays are empty, the object globals are undefined, both flags are `true`. -/
def initialState (musicToggle soundToggle : Button) : State :=
  { cityBlocks := [], palms := [], arches := [], gridPlane := none, car := none,
    tronBeam := none, tweens := [], audioListener := none, bgMusic := none,
    sfxBeam := none, sfxHover := none, musicPlaying := true, soundEnabled := true,
    musicToggle := musicToggle, soundToggle := soundToggle }

/-! ## Creation functions -/

/-- `createSoundWaveGrid`: a 800 x 1000 plane of 100 x 100 segments, rotated by
`-π/2` about X in the buffer (`cos = 0`, `sin = -1`), mesh at `y = -4`, and a
clone of the rotated positions kept as `originalPos`. -/
def createSoundWaveGrid (s : State) : State :=
  let geometry := (PlaneGeometry 800 1000 100 100).applyRotationX 0 (-1)
  { s with gridPlane := some { position := geometry, originalPos := geometry,
                               meshPosition := ⟨0, -4, 0⟩ } }

/-- Half of the width in x that `createReflectiveRoad` covers: the road plane
of width `CONF.roadWidth` and the two edge boxes of width 0.8 centred at
`± (CONF.roadWidth/2 + 0.4)`. -/
def roadOuterEdge : ℚ := (CONF.roadWidth / 2 + 0.4) + 0.8 / 2

/-- The block built by iteration `i` of the loop of `createNeonCity`; the
iteration makes six draws (`w`, `d`, `h`, `x`, `z`, edge colour) in this order. -/
def cityBlock (rnd : Nat → ℚ) (i : Nat) : Object3D :=
  let w := 10 + rnd (6 * i) * 15
  let d := 10 + rnd (6 * i + 1) * 15
  let h := 20 + rnd (6 * i + 2) * 60
  let x := rnd (6 * i + 3) * 600 - 300
  let x := if |x| < 40 then (if x < 0 then -50 else 50) else x
  let z := -rnd (6 * i + 4) * 800 - 100
  { position := ⟨x, -5, z⟩, scale := ⟨w, h, d⟩ }

/-- `createNeonCity`: `CONF.cityBlockCount` pushes onto `cityBlocks`. -/
def createNeonCity (rnd : Nat → ℚ) (s : State) : State :=
  (List.range CONF.cityBlockCount).foldl
    (fun st i => { st with cityBlocks := st.cityBlocks ++ [cityBlock rnd i] }) s

/-- The group built by iteration `i` of the loop of `createNeonPalms`. -/
def palmGroup (i : Nat) : Object3D :=
  let side : ℚ := if i % 2 = 0 then 1 else -1
  { position := ⟨side * (CONF.roadWidth / 2 + 8), -2, -(i : ℚ) * 60⟩ }

/-- `createNeonPalms`: `CONF.palmCount * 2` pushes onto `palms`. -/
def createNeonPalms (s : State) : State :=
  (List.range (CONF.palmCount * 2)).foldl
    (fun st i => { st with palms := st.palms ++ [palmGroup i] }) s

/-- The mesh built by iteration `i` of the loop of `createWiderArches`. -/
def archMesh (i : Nat) : Object3D :=
  { position := ⟨0, -5, -(i : ℚ) * 150⟩ }

/-- `createWiderArches`: `CONF.archCount` pushes onto `arches`. -/
def createWiderArches (s : State) : State :=
  (List.range CONF.archCount).foldl
    (fun st i => { st with arches := st.arches ++ [archMesh i] }) s

/-- `createTronStation`: the beam material starts with opacity 0. -/
def createTronStation (s : State) : State := { s with tronBeam := some 0 }

/-- `createSleekCar`: the car group is placed at `(0, 0, 15)`. -/
def createSleekCar (s : State) : State :=
  { s with car := some { position := ⟨0, 0, 15⟩ } }

/-- `setupAudio`, up to the asynchronous loads: the listener and the three
sounds are created; `suspended` tells whether the audio context starts
suspended. -/
def setupAudio (suspended : Bool) (s : State) : State :=
  { s with audioListener := some suspended, bgMusic := some {}, sfxBeam := some {},
           sfxHover := some {} }

/-! ## The frame update -/

/-- The body of `palms.forEach` in `animate`. -/
def movePalm (delta : ℚ) (palm : Object3D) : Object3D :=
  let speed := CONF.speed * delta
  let z := palm.position.z + speed
  let z := if z > 20 then -700 else z
  { palm with position := { palm.position with z := z },
              rotation := { palm.rotation with y := palm.rotation.y + delta * 0.1 } }

/-- The body of `arches.forEach` in `animate`. -/
def moveArch (delta : ℚ) (arch : Object3D) : Object3D :=
  let speed := CONF.speed * delta
  let z := arch.position.z + speed
  let z := if z > 20 then -1200 else z
  { arch with position := { arch.position with z := z } }

/-- The body of `cityBlocks.forEach` in `animate`. -/
def moveCityBlock (delta : ℚ) (b : Object3D) : Object3D :=
  let speed := CONF.speed * delta
  let z := b.position.z + speed * 0.2
  let z := if z > 50 then -800 else z
  { b with position := { b.position with z := z } }

/-- One iteration of the vertex loop of `animate`, for vertex `i`. -/
def gridVertexUpdate (env : Env) (time beat : ℚ) (orig pos : BufferAttribute) (i : Nat) :
    BufferAttribute :=
  let x := orig.getX i
  let z := orig.getY i
  if |x| < CONF.roadWidth / 2 + 5 then pos.setZ i 0
  else
    let dist := |x| / 50
    let noise := env.noise2D (x * 0.02) (z * 0.01 + time * 0.5)
    let height := noise * 15 * dist
    let height := height * (0.8 + beat * 0.4)
    pos.setZ i height

/-- The grid wave block of `animate`: the loop `for (i = 0; i < pos.count; i++)`. -/
def gridWave (env : Env) (time : ℚ) (g : GridPlane) : GridPlane :=
  let beat := env.sin (time * 8) * 0.5 + 0.5
  let loop := (List.range g.position.count).foldl
    (fun pos i => gridVertexUpdate env time beat g.originalPos pos i) g.position
  { g with position := loop }

/-- The car bounce block of `animate`. -/
def carBounce (env : Env) (time : ℚ) (car : Object3D) : Object3D :=
  { car with position := { car.position with y := env.sin (time * 15) * 0.03 },
             rotation := { car.rotation with z := env.sin (time * 2) * 0.02 } }

/-- The function declared as `animate` (kept by the script as `_origAnimate`),
for a frame whose clock readings are `delta` and `time`. -/
def origAnimate (env : Env) (delta time : ℚ) (s : State) : State :=
  { s with palms := s.palms.map (movePalm delta),
           arches := s.arches.map (moveArch delta),
           gridPlane := s.gridPlane.map (gridWave env time),
           car := s.car.map (carBounce env time),
           cityBlocks := s.cityBlocks.map (moveCityBlock delta) }

/-- `TWEEN.update()`: the tween engine advances the running tweens, which
write the beam opacity. -/
def tweenUpdate (env : Env) (s : State) : State :=
  match s.tronBeam with
  | none => s
  | some o =>
    let r := env.tweenUpdate o s.tweens
    { s with tronBeam := some r.1, tweens := r.2 }

/-- The value of `animate` once the script has run: `TWEEN.update()` followed
by the original function. -/
def animate (env : Env) (delta time : ℚ) (s : State) : State :=
  origAnimate env delta time (tweenUpdate env s)

/-- The inputs of one run of `init`: the random stream seen by
`createNeonCity`, the clock readings of the frame that `init` draws itself, and
whether the audio context starts suspended. -/
structure InitInput where
  random : Nat → ℚ
  delta : ℚ
  time : ℚ
  suspended : Bool

/-- `init`: build the world, set up audio, draw the first frame.  The calls
that write none of the modelled globals (`createSun`, `createReflectiveRoad`,
`createStarfield`, the listener registrations and `setInterval`) are left out;
the creation calls keep the order of the source. -/
def init (env : Env) (inp : InitInput) (s : State) : State :=
  let s := createSoundWaveGrid s
  let s := createNeonCity inp.random s
  let s := createNeonPalms s
  let s := createWiderArches s
  let s := createTronStation s
  let s := createSleekCar s
  let s := setupAudio inp.suspended s
  animate env inp.delta inp.time s

/-- The clock readings of one frame. -/
structure Frame where
  delta : ℚ
  time : ℚ

/-- A run of the render loop: `animate` once per frame, in order. -/
def runFrames (env : Env) (frames : List Frame) (s : State) : State :=
  frames.foldl (fun st f => animate env f.delta f.time st) s

/-! ## Event handlers -/

/-- What a handler leaves behind: the state, and whether it ended by throwing
(a JavaScript exception keeps the writes made before it). -/
structure Outcome where
  state : State
  threw : Bool

/-- `resumeAudioContext`. -/
def resumeAudioContext (s : State) : State :=
  let s := match s.audioListener with
    | some true => { s with audioListener := some false }
    | _ => s
  match s.bgMusic with
  | some music =>
    if s.musicPlaying && !music.isPlaying then { s with bgMusic := some music.play } else s
  | none => s

/-- The tween that `fireTronBeam` starts: to opacity 1 over 500 ms with
circular-out easing; on completion a timeout of 2000 ms starts a tween to
opacity 0 over 2000 ms. -/
def beamTween : Tween :=
  { toOpacity := 1, duration := 500, easing := Easing.CircularOut,
    onComplete := some (2000, 0, 2000) }

/-- `fireTronBeam`.  Reading `tronBeam.material` while `tronBeam` is undefined
throws. -/
def fireTronBeam (s : State) : Outcome :=
  match s.sfxBeam with
  | none => ⟨s, false⟩
  | some beam =>
    let s1 :=
      if s.soundEnabled then
        let beam := if beam.isPlaying then beam.stop else beam
        { s with sfxBeam := some beam.play }
      else s
    match s1.tronBeam with
    | none => ⟨s1, true⟩
    | some _ => ⟨{ s1 with tweens := beamTween :: s1.tweens }, false⟩

/-- The timeout callback set by the `onComplete` of `beamTween`. -/
def beamFadeOut (s : State) : Outcome :=
  match s.tronBeam with
  | none => ⟨s, true⟩
  | some _ =>
    ⟨{ s with tweens := { toOpacity := 0, duration := 2000, easing := Easing.Linear,
                          onComplete := none } :: s.tweens }, false⟩

/-- `toggleMusic`.  Calling a method of `bgMusic` while it is undefined throws,
before the flag is written. -/
def toggleMusic (s : State) : Outcome :=
  match s.bgMusic with
  | none => ⟨s, true⟩
  | some music =>
    let s1 :=
      if s.musicPlaying then
        { s with bgMusic := some music.pause, musicToggle := ⟨true, "Music: OFF"⟩ }
      else
        { s with bgMusic := some music.play, musicToggle := ⟨false, "Music: ON"⟩ }
    ⟨{ s1 with musicPlaying := !s1.musicPlaying }, false⟩

/-- `toggleSound`. -/
def toggleSound (s : State) : State :=
  let s := { s with soundEnabled := !s.soundEnabled }
  if s.soundEnabled then { s with soundToggle := ⟨false, "Sound: ON"⟩ }
  else { s with soundToggle := ⟨true, "Sound: OFF"⟩ }

/-- The JavaScript value `playHoverSound` is called with: nothing, `null`, a
boolean, a finite number, `NaN`, an infinity, the empty string, or the DOM
event object (the `mouseenter` listener is the function itself, so the event
is its first argument). -/
inductive HoverArg where
  | undefined
  | null
  | boolean (b : Bool)
  | number (v : ℚ)
  | nan
  | infinity (negative : Bool)
  | emptyString
  | event
deriving DecidableEq

namespace HoverArg

/-- JavaScript truthiness: `undefined`, `null`, `false`, `0`, `NaN` and `''`
are falsy, every other value is truthy. -/
def truthy : HoverArg → Bool
  | undefined => false
  | null => false
  | boolean b => b
  | number v => decide (v ≠ 0)
  | nan => false
  | infinity _ => true
  | emptyString => false
  | event => true

/-- The expression `vol || 0.4`. -/
def orDefault (vol : HoverArg) : HoverArg := if vol.truthy then vol else number 0.4

/-- The conversion a Web Audio parameter applies to the value `setVolume`
hands it: the value is turned into a number and a number that is not finite
is rejected by throwing (`none`). -/
def toFloat : HoverArg → Option ℚ
  | undefined => none
  | null => some 0
  | boolean b => some (if b then 1 else 0)
  | number v => some v
  | nan => none
  | infinity _ => none
  | emptyString => some 0
  | event => none

end HoverArg

/-- `playHoverSound(vol)`.  `sfxHover.setVolume(vol || 0.4)` throws when the
value is rejected, and `play` is then not reached. -/
def playHoverSound (vol : HoverArg) (s : State) : Outcome :=
  let s := resumeAudioContext s
  match s.sfxHover with
  | none => ⟨s, false⟩
  | some hover =>
    if s.soundEnabled && hover.buffer then
      let hover := if hover.isPlaying then hover.stop else hover
      match vol.orDefault.toFloat with
      | some v => ⟨{ s with sfxHover := some (hover.setVolume v).play }, false⟩
      | none => ⟨{ s with sfxHover := some hover }, true⟩
    else ⟨s, false⟩

/-- The load callback of the music asset: buffer, loop, volume 0.6, `play()`;
the `.catch` that follows is applied to the `THREE.Audio` that `play` returns,
which has no such method, so the callback ends by throwing after the play. -/
def musicLoaded (s : State) : Outcome :=
  match s.bgMusic with
  | none => ⟨s, true⟩
  | some music =>
    ⟨{ s with bgMusic := some (((music.setBuffer).setLoop true).setVolume 0.6).play }, true⟩

/-- The load callback of the beam sound: buffer and volume 1.0. -/
def beamLoaded (s : State) : Outcome :=
  match s.sfxBeam with
  | none => ⟨s, true⟩
  | some beam => ⟨{ s with sfxBeam := some ((beam.setBuffer).setVolume 1.0) }, false⟩

/-- The load callback of the hover sound: buffer and volume 0.4. -/
def hoverLoaded (s : State) : Outcome :=
  match s.sfxHover with
  | none => ⟨s, true⟩
  | some hover => ⟨{ s with sfxHover := some ((hover.setBuffer).setVolume 0.4) }, false⟩

/-- The library clears `isPlaying` when a sound reaches its end. -/
def Audio.ended (a : Audio) : Audio := { a with isPlaying := false }

/-- Everything that can happen after `init`: a frame, the beam timer, the
timeout of the beam sequence, the two buttons, a hover or click on a
decorated element, the first click or key press, the three load callbacks,
and a sound reaching its end. -/
inductive Event where
  | frame (delta time : ℚ)
  | fireTronBeam
  | beamFadeOut
  | toggleMusic
  | toggleSound
  | playHoverSound (vol : HoverArg)
  | resumeAudioContext
  | musicLoaded
  | beamLoaded
  | hoverLoaded
  | musicEnded
  | beamEnded
  | hoverEnded

/-- Run the handler of an event. -/
def handle (env : Env) (e : Event) (s : State) : Outcome :=
  match e with
  | Event.frame delta time => ⟨animate env delta time s, false⟩
  | Event.fireTronBeam => fireTronBeam s
  | Event.beamFadeOut => beamFadeOut s
  | Event.toggleMusic => toggleMusic s
  | Event.toggleSound => ⟨toggleSound s, false⟩
  | Event.playHoverSound vol => playHoverSound vol s
  | Event.resumeAudioContext => ⟨resumeAudioContext s, false⟩
  | Event.musicLoaded => musicLoaded s
  | Event.beamLoaded => beamLoaded s
  | Event.hoverLoaded => hoverLoaded s
  | Event.musicEnded => ⟨{ s with bgMusic := s.bgMusic.map Audio.ended }, false⟩
  | Event.beamEnded => ⟨{ s with sfxBeam := s.sfxBeam.map Audio.ended }, false⟩
  | Event.hoverEnded => ⟨{ s with sfxHover := s.sfxHover.map Audio.ended }, false⟩

/-- The states the page can be in once `init` has run: the state `init`
leaves, and every state an event handler leaves from such a state. -/
inductive Reachable (env : Env) : State → Prop where
  | boot (musicToggle soundToggle : Button) (inp : InitInput) :
      Reachable env (init env inp (initialState musicToggle soundToggle))
  | step (e : Event) (s : State) (h : Reachable env s) :
      Reachable env (handle env e s).state

/-! ## Properties named by the specification -/

/-- The wrap function of the specification: `far` once `v` is beyond `near`. -/
def specWrap (near far v : ℚ) : ℚ := if v > near then far else v

/-- The position the specification gives an object after one update: `x` and
`y` kept, depth advanced by `k * 60 * d` and wrapped. -/
def specMove (k near far d : ℚ) (p : Vector3) : Vector3 :=
  ⟨p.x, p.y, specWrap near far (p.z + k * 60 * d)⟩

/-- The wrap bounds as the specification states them: palms in `[-700, 20]`,
arches in `[-1200, 20]`, city blocks in `[-800, 50]`. -/
def WithinWrapBounds (s : State) : Prop :=
  (∀ p ∈ s.palms, -700 ≤ p.position.z ∧ p.position.z ≤ 20) ∧
  (∀ a ∈ s.arches, -1200 ≤ a.position.z ∧ a.position.z ≤ 20) ∧
  (∀ b ∈ s.cityBlocks, -800 ≤ b.position.z ∧ b.position.z ≤ 50)

/-- The bounds the code keeps: the near threshold above, and below the lower
of the far depth and the depth the object was built at (`-60 * 23 = -1380` for
palms, above `-900` for city blocks). -/
def WithinBuiltBounds (s : State) : Prop :=
  (∀ p ∈ s.palms, -1380 ≤ p.position.z ∧ p.position.z ≤ 20) ∧
  (∀ a ∈ s.arches, -1200 ≤ a.position.z ∧ a.position.z ≤ 20) ∧
  (∀ b ∈ s.cityBlocks, -900 < b.position.z ∧ b.position.z ≤ 50)

/-- The footprint in x of a city block (unit box scaled by `scale.x`, centred
at `position.x`) meets the interval `[lo, hi]`. -/
def footprintMeets (lo hi : ℚ) (b : Object3D) : Prop :=
  b.position.x - b.scale.x / 2 ≤ hi ∧ lo ≤ b.position.x + b.scale.x / 2

/-- A stream of draws as `Math.random()` gives them: each in `[0, 1)`. -/
def UnitDraws (rnd : Nat → ℚ) : Prop := ∀ k, 0 ≤ rnd k ∧ rnd k < 1

/-- Every frame of the list has a non-negative delta. -/
def NonNegDeltas (frames : List Frame) : Prop := ∀ f ∈ frames, 0 ≤ f.delta

/-! ## Concrete inputs used to exercise the definitions -/

/-- A concrete environment: `sin` constantly 0, noise constantly `1/2`, and a
tween engine that leaves the opacity as it is. -/
def sampleEnv : Env :=
  { sin := fun _ => 0, noise2D := fun _ _ => 1 / 2, tweenUpdate := fun o l => (o, l) }

/-- A button as the page shows it at load. -/
def sampleButton : Button := ⟨false, "ON"⟩

/-- An `init` whose draws are all `9/10` and whose first frame has delta 0. -/
def deepInput : InitInput :=
  { random := fun _ => 9 / 10, delta := 0, time := 0, suspended := true }

/-- An `init` whose draws are all `1/2` and whose first frame has delta 0. -/
def sampleInput : InitInput :=
  { random := fun _ => 1 / 2, delta := 0, time := 0, suspended := true }

/-- An `init` whose first block draws `w = 24` and `x = 40`. -/
def nearRoadInput : InitInput :=
  { random := fun k => if k = 0 then 14 / 15 else if k = 3 then 17 / 30 else 0,
    delta := 0, time := 0, suspended := true }

/-- One frame of a sixtieth of a second. -/
def sampleFrames : List Frame := [⟨1 / 60, 1 / 60⟩]

/-- One frame with delta 0. -/
def stillFrames : List Frame := [⟨0, 0⟩]

/-! ## The grid: derived quantities -/

/-- The position attribute `createSoundWaveGrid` builds (and clones). -/
def builtGrid : BufferAttribute := (PlaneGeometry 800 1000 100 100).applyRotationX 0 (-1)

/-- The value that the iteration for vertex `i` of the vertex loop hands to
`pos.setZ`. -/
def gridValue (env : Env) (time beat : ℚ) (orig : BufferAttribute) (i : Nat) : ℚ :=
  let x := orig.getX i
  let z := orig.getY i
  if |x| < CONF.roadWidth / 2 + 5 then 0
  else env.noise2D (x * 0.02) (z * 0.01 + time * 0.5) * 15 * (|x| / 50) * (0.8 + beat * 0.4)

/-- The beat envelope of the specification, from the value of `sin (8 t)`. -/
def specBeat (sin8t : ℚ) : ℚ := 0.5 * sin8t + 0.5

/-- The displacement of the specification for a vertex at `x`. -/
def specHeight (noise x beat : ℚ) : ℚ := noise * 15 * (|x| / 50) * (0.8 + 0.4 * beat)

/-- A grid as `createSoundWaveGrid` builds it and the vertex loop keeps it: the
clone is the built attribute, the mesh sits at `y = -4`, and the live attribute
has the built vertex count and the built `x` and `y` of every vertex. -/
def GridBuilt (g : GridPlane) : Prop :=
  g.originalPos = builtGrid ∧ g.meshPosition = ⟨0, -4, 0⟩ ∧ g.position.count = 10201 ∧
  ∀ j, (g.position.vertex j).x = (builtGrid.vertex j).x ∧
       (g.position.vertex j).y = (builtGrid.vertex j).y

/-- The objects `init` creates before it wires any listener or timer are
there: the beam, the music and the two sound effects. -/
def ObjectsCreated (s : State) : Prop :=
  s.tronBeam.isSome ∧ s.bgMusic.isSome ∧ s.sfxBeam.isSome ∧ s.sfxHover.isSome

/-! ## Audio: states and properties named by the specification -/

/-- The state `init` leaves for the sample input. -/
def bootState : State :=
  init sampleEnv sampleInput (initialState sampleButton sampleButton)

/-- The state after `init` and the load callback of the hover sound: sound
effects enabled, hover buffer loaded. -/
def hoverReadyState : State := (hoverLoaded bootState).state

/-- The state after `init`, a click on the music button, and then the load
callback of the music asset. -/
def toggledThenLoaded : State := (musicLoaded (toggleMusic bootState).state).state

/-- The background music is playing only if `musicPlaying` is true. -/
def MusicFollowsToggle (s : State) : Prop :=
  ∀ music, s.bgMusic = some music → music.isPlaying = true → s.musicPlaying = true

/-- The sound `playHoverSound` works on once it has stopped a playing one. -/
def hoverBase (hover : Audio) : Audio := if hover.isPlaying then hover.stop else hover

/-! ## The creation loops as maps -/

theorem foldl_push_cityBlocks (f : Nat → Object3D) (l : List Nat) (s : State) :
    l.foldl (fun st i => { st with cityBlocks := st.cityBlocks ++ [f i] }) s
      = { s with cityBlocks := s.cityBlocks ++ l.map f } := by
  induction l generalizing s with
  | nil => simp
  | cons a l ih => simp [ih]

theorem foldl_push_palms (f : Nat → Object3D) (l : List Nat) (s : State) :
    l.foldl (fun st i => { st with palms := st.palms ++ [f i] }) s
      = { s with palms := s.palms ++ l.map f } := by
  induction l generalizing s with
  | nil => simp
  | cons a l ih => simp [ih]

theorem foldl_push_arches (f : Nat → Object3D) (l : List Nat) (s : State) :
    l.foldl (fun st i => { st with arches := st.arches ++ [f i] }) s
      = { s with arches := s.arches ++ l.map f } := by
  induction l generalizing s with
  | nil => simp
  | cons a l ih => simp [ih]

theorem init_palms (env : Env) (inp : InitInput) (mt st : Button) :
    (init env inp (initialState mt st)).palms
      = ((List.range 24).map palmGroup).map (movePalm inp.delta) := by
  simp [init, animate, origAnimate, tweenUpdate, setupAudio, createSleekCar, createTronStation,
    createWiderArches, createNeonPalms, createNeonCity, createSoundWaveGrid, initialState,
    foldl_push_arches, foldl_push_palms, foldl_push_cityBlocks, CONF]

theorem init_arches (env : Env) (inp : InitInput) (mt st : Button) :
    (init env inp (initialState mt st)).arches
      = ((List.range 8).map archMesh).map (moveArch inp.delta) := by
  simp [init, animate, origAnimate, tweenUpdate, setupAudio, createSleekCar, createTronStation,
    createWiderArches, createNeonPalms, createNeonCity, createSoundWaveGrid, initialState,
    foldl_push_arches, foldl_push_palms, foldl_push_cityBlocks, CONF]

theorem init_cityBlocks (env : Env) (inp : InitInput) (mt st : Button) :
    (init env inp (initialState mt st)).cityBlocks
      = ((List.range 80).map (cityBlock inp.random)).map (moveCityBlock inp.delta) := by
  simp [init, animate, origAnimate, tweenUpdate, setupAudio, createSleekCar, createTronStation,
    createWiderArches, createNeonPalms, createNeonCity, createSoundWaveGrid, initialState,
    foldl_push_arches, foldl_push_palms, foldl_push_cityBlocks, CONF]

/-! ## The frame update on the three arrays -/

theorem animate_palms (env : Env) (d t : ℚ) (s : State) :
    (animate env d t s).palms = s.palms.map (movePalm d) := by
  unfold animate origAnimate tweenUpdate
  cases s.tronBeam <;> rfl

theorem animate_arches (env : Env) (d t : ℚ) (s : State) :
    (animate env d t s).arches = s.arches.map (moveArch d) := by
  unfold animate origAnimate tweenUpdate
  cases s.tronBeam <;> rfl

theorem animate_cityBlocks (env : Env) (d t : ℚ) (s : State) :
    (animate env d t s).cityBlocks = s.cityBlocks.map (moveCityBlock d) := by
  unfold animate origAnimate tweenUpdate
  cases s.tronBeam <;> rfl

theorem runFrames_palms (env : Env) (frames : List Frame) (s : State) :
    (runFrames env frames s).palms
      = s.palms.map (fun p => frames.foldl (fun q f => movePalm f.delta q) p) := by
  induction frames generalizing s with
  | nil => simp [runFrames]
  | cons f fs ih =>
    have h := ih (animate env f.delta f.time s)
    simp only [runFrames, List.foldl_cons] at h ⊢
    rw [h, animate_palms, List.map_map]
    rfl

theorem runFrames_arches (env : Env) (frames : List Frame) (s : State) :
    (runFrames env frames s).arches
      = s.arches.map (fun p => frames.foldl (fun q f => moveArch f.delta q) p) := by
  induction frames generalizing s with
  | nil => simp [runFrames]
  | cons f fs ih =>
    have h := ih (animate env f.delta f.time s)
    simp only [runFrames, List.foldl_cons] at h ⊢
    rw [h, animate_arches, List.map_map]
    rfl

theorem runFrames_cityBlocks (env : Env) (frames : List Frame) (s : State) :
    (runFrames env frames s).cityBlocks
      = s.cityBlocks.map (fun p => frames.foldl (fun q f => moveCityBlock f.delta q) p) := by
  induction frames generalizing s with
  | nil => simp [runFrames]
  | cons f fs ih =>
    have h := ih (animate env f.delta f.time s)
    simp only [runFrames, List.foldl_cons] at h ⊢
    rw [h, animate_cityBlocks, List.map_map]
    rfl

/-! ## Wrap bounds of a single object -/

theorem movePalm_z_le (d : ℚ) (p : Object3D) : (movePalm d p).position.z ≤ 20 := by
  simp only [movePalm]
  split_ifs with h
  · norm_num
  · exact not_lt.mp h

theorem movePalm_z_ge (lo d : ℚ) (p : Object3D) (hlo : lo ≤ -700) (hd : 0 ≤ d)
    (hp : lo ≤ p.position.z) : lo ≤ (movePalm d p).position.z := by
  simp only [movePalm, CONF]
  split_ifs with h
  · exact hlo
  · nlinarith

theorem moveArch_z_le (d : ℚ) (p : Object3D) : (moveArch d p).position.z ≤ 20 := by
  simp only [moveArch]
  split_ifs with h
  · norm_num
  · exact not_lt.mp h

theorem moveArch_z_ge (lo d : ℚ) (p : Object3D) (hlo : lo ≤ -1200) (hd : 0 ≤ d)
    (hp : lo ≤ p.position.z) : lo ≤ (moveArch d p).position.z := by
  simp only [moveArch, CONF]
  split_ifs with h
  · exact hlo
  · nlinarith

theorem moveCityBlock_z_le (d : ℚ) (p : Object3D) : (moveCityBlock d p).position.z ≤ 50 := by
  simp only [moveCityBlock]
  split_ifs with h
  · norm_num
  · exact not_lt.mp h

theorem moveCityBlock_z_gt (lo d : ℚ) (p : Object3D) (hlo : lo < -800) (hd : 0 ≤ d)
    (hp : lo < p.position.z) : lo < (moveCityBlock d p).position.z := by
  simp only [moveCityBlock, CONF]
  split_ifs with h
  · exact hlo
  · norm_num
    nlinarith

theorem foldl_movePalm_bounds (lo : ℚ) (hlo : lo ≤ -700) (frames : List Frame)
    (hf : NonNegDeltas frames) (p : Object3D) (hp : lo ≤ p.position.z ∧ p.position.z ≤ 20) :
    lo ≤ (frames.foldl (fun q f => movePalm f.delta q) p).position.z ∧
      (frames.foldl (fun q f => movePalm f.delta q) p).position.z ≤ 20 := by
  induction frames generalizing p with
  | nil => simpa using hp
  | cons f fs ih =>
    simp only [List.foldl_cons]
    apply ih (fun g hg => hf g (List.mem_cons_of_mem _ hg))
    exact ⟨movePalm_z_ge lo f.delta p hlo (hf f (List.mem_cons_self _ _)) hp.1,
      movePalm_z_le f.delta p⟩

theorem foldl_moveArch_bounds (lo : ℚ) (hlo : lo ≤ -1200) (frames : List Frame)
    (hf : NonNegDeltas frames) (p : Object3D) (hp : lo ≤ p.position.z ∧ p.position.z ≤ 20) :
    lo ≤ (frames.foldl (fun q f => moveArch f.delta q) p).position.z ∧
      (frames.foldl (fun q f => moveArch f.delta q) p).position.z ≤ 20 := by
  induction frames generalizing p with
  | nil => simpa using hp
  | cons f fs ih =>
    simp only [List.foldl_cons]
    apply ih (fun g hg => hf g (List.mem_cons_of_mem _ hg))
    exact ⟨moveArch_z_ge lo f.delta p hlo (hf f (List.mem_cons_self _ _)) hp.1,
      moveArch_z_le f.delta p⟩

theorem foldl_moveCityBlock_bounds (lo : ℚ) (hlo : lo < -800) (frames : List Frame)
    (hf : NonNegDeltas frames) (p : Object3D) (hp : lo < p.position.z ∧ p.position.z ≤ 50) :
    lo < (frames.foldl (fun q f => moveCityBlock f.delta q) p).position.z ∧
      (frames.foldl (fun q f => moveCityBlock f.delta q) p).position.z ≤ 50 := by
  induction frames generalizing p with
  | nil => simpa using hp
  | cons f fs ih =>
    simp only [List.foldl_cons]
    apply ih (fun g hg => hf g (List.mem_cons_of_mem _ hg))
    exact ⟨moveCityBlock_z_gt lo f.delta p hlo (hf f (List.mem_cons_self _ _)) hp.1,
      moveCityBlock_z_le f.delta p⟩

/-! ## Depths at construction -/

theorem palmGroup_z (i : Nat) (hi : i < 24) :
    -1380 ≤ (palmGroup i).position.z ∧ (palmGroup i).position.z ≤ 20 := by
  have h : (i : ℚ) ≤ 23 := by exact_mod_cast Nat.le_of_lt_succ hi
  have h0 : (0 : ℚ) ≤ i := Nat.cast_nonneg i
  simp only [palmGroup]
  constructor <;> nlinarith

theorem palmGroup_z_near (i : Nat) (hi : i < 12) : -700 ≤ (palmGroup i).position.z := by
  have h : (i : ℚ) ≤ 11 := by exact_mod_cast Nat.le_of_lt_succ hi
  simp only [palmGroup]
  nlinarith

theorem archMesh_z (i : Nat) (hi : i < 8) :
    -1200 ≤ (archMesh i).position.z ∧ (archMesh i).position.z ≤ 20 := by
  have h : (i : ℚ) ≤ 7 := by exact_mod_cast Nat.le_of_lt_succ hi
  have h0 : (0 : ℚ) ≤ i := Nat.cast_nonneg i
  simp only [archMesh]
  constructor <;> nlinarith

theorem cityBlock_z (rnd : Nat → ℚ) (hr : UnitDraws rnd) (i : Nat) :
    -900 < (cityBlock rnd i).position.z ∧ (cityBlock rnd i).position.z ≤ 50 := by
  have h := hr (6 * i + 4)
  simp only [cityBlock]
  constructor <;> nlinarith [h.1, h.2]

/-! ## C1 : wrap bounds -/

/-- C1 (as stated) fails: with every draw `9/10`, first-frame delta 0 and one
further frame of delta 0, the palm of index 23 is at depth `-1380 < -700` and
the city blocks are at depth `-820 < -800`, so the state is outside the wrap
bounds the specification names. -/
theorem wrap_bounds_as_stated_fail :
    ¬ WithinWrapBounds
        (runFrames sampleEnv stillFrames (init sampleEnv deepInput
          (initialState sampleButton sampleButton))) ∧
    (∃ p ∈ (runFrames sampleEnv stillFrames (init sampleEnv deepInput
          (initialState sampleButton sampleButton))).palms, p.position.z = -1380) ∧
    (∃ b ∈ (runFrames sampleEnv stillFrames (init sampleEnv deepInput
          (initialState sampleButton sampleButton))).cityBlocks, b.position.z = -820) := by
  have hp : ∃ p ∈ (runFrames sampleEnv stillFrames (init sampleEnv deepInput
      (initialState sampleButton sampleButton))).palms, p.position.z = -1380 := by
    rw [runFrames_palms, init_palms]
    refine ⟨_, List.mem_map.mpr ⟨_, List.mem_map.mpr ⟨palmGroup 23,
      List.mem_map.mpr ⟨23, List.mem_range.mpr (by norm_num), rfl⟩, rfl⟩, rfl⟩, ?_⟩
    norm_num [stillFrames, deepInput, movePalm, palmGroup, CONF]
  have hb : ∃ b ∈ (runFrames sampleEnv stillFrames (init sampleEnv deepInput
      (initialState sampleButton sampleButton))).cityBlocks, b.position.z = -820 := by
    rw [runFrames_cityBlocks, init_cityBlocks]
    refine ⟨_, List.mem_map.mpr ⟨_, List.mem_map.mpr ⟨cityBlock deepInput.random 0,
      List.mem_map.mpr ⟨0, List.mem_range.mpr (by norm_num), rfl⟩, rfl⟩, rfl⟩, ?_⟩
    norm_num [stillFrames, deepInput, moveCityBlock, cityBlock, CONF]
  refine ⟨?_, hp, hb⟩
  intro h
  obtain ⟨p, hmem, hz⟩ := hp
  have := (h.1 p hmem).1
  rw [hz] at this
  norm_num at this

theorem getElem?_range_map {α : Type} (f : Nat → α) (n i : Nat) (p : α)
    (h : ((List.range n).map f)[i]? = some p) : i < n ∧ p = f i := by
  rw [List.getElem?_map] at h
  by_cases hi : i < n
  · rw [List.getElem?_range hi] at h
    simp only [Option.map_some', Option.some.injEq] at h
    exact ⟨hi, h.symm⟩
  · rw [List.getElem?_eq_none (by simpa using hi)] at h
    simp at h

theorem moveCityBlock_z_ge (lo d : ℚ) (p : Object3D) (hlo : lo ≤ -800) (hd : 0 ≤ d)
    (hp : lo ≤ p.position.z) : lo ≤ (moveCityBlock d p).position.z := by
  simp only [moveCityBlock, CONF]
  split_ifs with h
  · exact hlo
  · norm_num
    nlinarith

theorem foldl_moveCityBlock_ge (lo : ℚ) (hlo : lo ≤ -800) (frames : List Frame)
    (hf : NonNegDeltas frames) (p : Object3D) (hp : lo ≤ p.position.z) :
    lo ≤ (frames.foldl (fun q f => moveCityBlock f.delta q) p).position.z := by
  induction frames generalizing p with
  | nil => simpa using hp
  | cons f fs ih =>
    simp only [List.foldl_cons]
    apply ih (fun g hg => hf g (List.mem_cons_of_mem _ hg))
    exact moveCityBlock_z_ge lo f.delta p hlo (hf f (List.mem_cons_self _ _)) hp

/-- The uniform bounds: every palm in `[-1380, 20]`, the first twelve in
`[-700, 20]`, every arch in `[-1200, 20]`, every city block in `(-900, 50]`. -/
theorem built_bounds_after_frames (env : Env) (inp : InitInput) (mt st : Button)
    (frames : List Frame) (hr : UnitDraws inp.random) (h0 : 0 ≤ inp.delta)
    (hf : NonNegDeltas frames) :
    WithinBuiltBounds (runFrames env frames (init env inp (initialState mt st))) ∧
    (∀ p ∈ (runFrames env frames (init env inp (initialState mt st))).palms.take 12,
        -700 ≤ p.position.z ∧ p.position.z ≤ 20) := by
  refine ⟨⟨?_, ?_, ?_⟩, ?_⟩
  · intro p hp
    rw [runFrames_palms, init_palms] at hp
    simp only [List.map_map, List.mem_map, List.mem_range] at hp
    obtain ⟨i, hi, rfl⟩ := hp
    exact foldl_movePalm_bounds (-1380) (by norm_num) frames hf _
      ⟨movePalm_z_ge _ _ _ (by norm_num) h0 (palmGroup_z i hi).1, movePalm_z_le _ _⟩
  · intro p hp
    rw [runFrames_arches, init_arches] at hp
    simp only [List.map_map, List.mem_map, List.mem_range] at hp
    obtain ⟨i, hi, rfl⟩ := hp
    exact foldl_moveArch_bounds (-1200) (by norm_num) frames hf _
      ⟨moveArch_z_ge _ _ _ (by norm_num) h0 (archMesh_z i hi).1, moveArch_z_le _ _⟩
  · intro p hp
    rw [runFrames_cityBlocks, init_cityBlocks] at hp
    simp only [List.map_map, List.mem_map, List.mem_range] at hp
    obtain ⟨i, _, rfl⟩ := hp
    exact foldl_moveCityBlock_bounds (-900) (by norm_num) frames hf _
      ⟨moveCityBlock_z_gt _ _ _ (by norm_num) h0 (cityBlock_z _ hr i).1,
        moveCityBlock_z_le _ _⟩
  · intro p hp
    rw [runFrames_palms, init_palms] at hp
    simp only [List.map_map, ← List.map_take, List.mem_map] at hp
    obtain ⟨i, hi, rfl⟩ := hp
    have hi12 : i < 12 := by
      have h12 : List.take 12 (List.range 24) = List.range 12 := by decide
      rw [h12] at hi
      exact List.mem_range.mp hi
    exact foldl_movePalm_bounds (-700) (by norm_num) frames hf _
      ⟨movePalm_z_ge _ _ _ (by norm_num) h0 (palmGroup_z_near i hi12), movePalm_z_le _ _⟩

/-- C1 (amended): from the state `init` leaves (draws in `[0, 1)`, first-frame
delta non-negative), after any list of frames with non-negative deltas each
object is at a depth between the lower of its far depth and the depth it was
built at, and its near threshold: the palm of index `i` in
`[min (-700) (-60 i), 20]`, the arch of index `i` in
`[min (-1200) (-150 i), 20] = [-1200, 20]`, the city block of index `i`, built
at depth `z0 = -(draw 6 i + 4) * 800 - 100`, in `[min (-800) z0, 50]`.  Hence
every palm is in `[-1380, 20]`, the twelve palms of index 0..11 in
`[-700, 20]`, and every city block in `(-900, 50]`. -/
theorem wrap_bounds_after_frames (env : Env) (inp : InitInput) (mt st : Button)
    (frames : List Frame) (hr : UnitDraws inp.random) (h0 : 0 ≤ inp.delta)
    (hf : NonNegDeltas frames) :
    (∀ (i : Nat) (p : Object3D),
      (runFrames env frames (init env inp (initialState mt st))).palms[i]? = some p →
        min (-700) (-60 * (i : ℚ)) ≤ p.position.z ∧ p.position.z ≤ 20) ∧
    (∀ (i : Nat) (a : Object3D),
      (runFrames env frames (init env inp (initialState mt st))).arches[i]? = some a →
        min (-1200) (-150 * (i : ℚ)) ≤ a.position.z ∧ -1200 ≤ a.position.z ∧
        a.position.z ≤ 20) ∧
    (∀ (i : Nat) (b : Object3D),
      (runFrames env frames (init env inp (initialState mt st))).cityBlocks[i]? = some b →
        min (-800) (-inp.random (6 * i + 4) * 800 - 100) ≤ b.position.z ∧
        b.position.z ≤ 50) ∧
    WithinBuiltBounds (runFrames env frames (init env inp (initialState mt st))) ∧
    (∀ p ∈ (runFrames env frames (init env inp (initialState mt st))).palms.take 12,
        -700 ≤ p.position.z ∧ p.position.z ≤ 20) := by
  obtain ⟨hu, ht⟩ := built_bounds_after_frames env inp mt st frames hr h0 hf
  refine ⟨?_, ?_, ?_, hu, ht⟩
  · intro i p hp
    rw [runFrames_palms, init_palms, List.map_map, List.map_map] at hp
    obtain ⟨_, rfl⟩ := getElem?_range_map _ 24 i p hp
    have hz : (palmGroup i).position.z = -60 * (i : ℚ) := by
      simp only [palmGroup]
      ring
    simp only [Function.comp]
    rw [← hz]
    exact foldl_movePalm_bounds _ (min_le_left _ _) frames hf _
      ⟨movePalm_z_ge _ _ _ (min_le_left _ _) h0 (min_le_right _ _), movePalm_z_le _ _⟩
  · intro i a hp
    rw [runFrames_arches, init_arches, List.map_map, List.map_map] at hp
    obtain ⟨hi, rfl⟩ := getElem?_range_map _ 8 i a hp
    have hz : (archMesh i).position.z = -150 * (i : ℚ) := by
      simp only [archMesh]
      ring
    simp only [Function.comp]
    rw [← hz]
    have h1 := foldl_moveArch_bounds _ (min_le_left _ _) frames hf
      (moveArch inp.delta (archMesh i))
      ⟨moveArch_z_ge _ _ _ (min_le_left (-1200) ((archMesh i).position.z)) h0
        (min_le_right _ _), moveArch_z_le _ _⟩
    have h2 := foldl_moveArch_bounds (-1200) (le_refl _) frames hf
      (moveArch inp.delta (archMesh i))
      ⟨moveArch_z_ge _ _ _ (le_refl _) h0 (archMesh_z i hi).1, moveArch_z_le _ _⟩
    exact ⟨h1.1, h2.1, h2.2⟩
  · intro i b hp
    rw [runFrames_cityBlocks, init_cityBlocks, List.map_map, List.map_map] at hp
    obtain ⟨_, rfl⟩ := getElem?_range_map _ 80 i b hp
    have hz : (cityBlock inp.random i).position.z = -inp.random (6 * i + 4) * 800 - 100 := by
      simp only [cityBlock]
    simp only [Function.comp]
    rw [← hz]
    have hle : (moveCityBlock inp.delta (cityBlock inp.random i)).position.z ≤ 50 :=
      moveCityBlock_z_le _ _
    refine ⟨foldl_moveCityBlock_ge _ (min_le_left _ _) frames hf _
      (moveCityBlock_z_ge _ _ _ (min_le_left _ _) h0 (min_le_right _ _)), ?_⟩
    exact (foldl_moveCityBlock_bounds (-900) (by norm_num) frames hf _
      ⟨moveCityBlock_z_gt _ _ _ (by norm_num) h0 (cityBlock_z _ hr i).1, hle⟩).2

/-- C1 (amended), exercised: draws `1/2`, first-frame delta 0, one frame of a
sixtieth of a second; the palm of index 0, built at depth 0, is then at depth
1, and the palm of index 23 at depth `-1379`. -/
theorem wrap_bounds_after_frames_witness :
    UnitDraws sampleInput.random ∧ 0 ≤ sampleInput.delta ∧ NonNegDeltas sampleFrames ∧
    (∃ p : Object3D, (runFrames sampleEnv sampleFrames bootState).palms[0]? = some p ∧
      p.position.z = 1) ∧
    (∃ p : Object3D, (runFrames sampleEnv sampleFrames bootState).palms[23]? = some p ∧
      p.position.z = -1379) ∧
    (∀ (i : Nat) (p : Object3D),
      (runFrames sampleEnv sampleFrames bootState).palms[i]? = some p →
        min (-700) (-60 * (i : ℚ)) ≤ p.position.z ∧ p.position.z ≤ 20) ∧
    WithinBuiltBounds (runFrames sampleEnv sampleFrames bootState) :=
  have hr : UnitDraws sampleInput.random := fun _ => by norm_num [sampleInput]
  have h0 : 0 ≤ sampleInput.delta := by norm_num [sampleInput]
  have hf : NonNegDeltas sampleFrames := fun f hf => by
    simp only [sampleFrames, List.mem_singleton] at hf
    subst hf
    norm_num
  have h := wrap_bounds_after_frames sampleEnv sampleInput sampleButton sampleButton
    sampleFrames hr h0 hf
  have hp0 : ∃ p : Object3D, (runFrames sampleEnv sampleFrames bootState).palms[0]? = some p ∧
      p.position.z = 1 := by
    refine ⟨List.foldl (fun q f => movePalm f.delta q)
      (movePalm sampleInput.delta (palmGroup 0)) sampleFrames, ?_, ?_⟩
    · rw [bootState, runFrames_palms, init_palms, List.map_map, List.map_map,
        List.getElem?_map, List.getElem?_range (by norm_num)]
      rfl
    · norm_num [sampleFrames, sampleInput, movePalm, palmGroup, CONF]
  have hp23 : ∃ p : Object3D, (runFrames sampleEnv sampleFrames bootState).palms[23]? = some p ∧
      p.position.z = -1379 := by
    refine ⟨List.foldl (fun q f => movePalm f.delta q)
      (movePalm sampleInput.delta (palmGroup 23)) sampleFrames, ?_, ?_⟩
    · rw [bootState, runFrames_palms, init_palms, List.map_map, List.map_map,
        List.getElem?_map, List.getElem?_range (by norm_num)]
      rfl
    · norm_num [sampleFrames, sampleInput, movePalm, palmGroup, CONF]
  ⟨hr, h0, hf, hp0, hp23, h.1, h.2.2.2.1⟩

/-! ## C2 : one update step -/

theorem movePalm_position (d : ℚ) (p : Object3D) :
    (movePalm d p).position = specMove 1 20 (-700) d p.position := by
  simp only [movePalm, specMove, specWrap, CONF, one_mul]

theorem moveArch_position (d : ℚ) (p : Object3D) :
    (moveArch d p).position = specMove 1 20 (-1200) d p.position := by
  simp only [moveArch, specMove, specWrap, CONF, one_mul]

theorem moveCityBlock_position (d : ℚ) (p : Object3D) :
    (moveCityBlock d p).position = specMove 0.2 50 (-800) d p.position := by
  have h : (60 : ℚ) * d * 0.2 = 0.2 * 60 * d := by ring
  simp only [moveCityBlock, specMove, specWrap, CONF, h]

/-- C2: one `animate` step with frame delta `d` (any `d`, in particular
`d ≥ 0`) sends the position `(x, y, z)` of every palm to
`(x, y, wrap (z + 1 * 60 * d))` with `(near, far) = (20, -700)`, of every arch
likewise with `(20, -1200)`, of every city block to `(x, y, wrap (z + 0.2 * 60 * d))`
with `(50, -800)`, where `wrap v = far` if `v > near` (strictly) and `v`
otherwise; the three arrays keep their lengths. -/
theorem animate_moves_objects (env : Env) (d t : ℚ) (s : State) :
    (animate env d t s).palms.map Object3D.position
        = s.palms.map (fun p => specMove 1 20 (-700) d p.position) ∧
    (animate env d t s).arches.map Object3D.position
        = s.arches.map (fun p => specMove 1 20 (-1200) d p.position) ∧
    (animate env d t s).cityBlocks.map Object3D.position
        = s.cityBlocks.map (fun p => specMove 0.2 50 (-800) d p.position) ∧
    (animate env d t s).palms.length = s.palms.length ∧
    (animate env d t s).arches.length = s.arches.length ∧
    (animate env d t s).cityBlocks.length = s.cityBlocks.length := by
  rw [animate_palms, animate_arches, animate_cityBlocks]
  simp only [List.map_map, List.length_map, and_true]
  refine ⟨?_, ?_, ?_⟩
  · exact List.map_congr_left (fun p _ => movePalm_position d p)
  · exact List.map_congr_left (fun p _ => moveArch_position d p)
  · exact List.map_congr_left (fun p _ => moveCityBlock_position d p)

/-! ## C3 : counts after init -/

theorem movePalm_palmGroup_x (d : ℚ) (i : Nat) :
    (movePalm d (palmGroup i)).position.x = if i % 2 = 0 then 20.5 else -20.5 := by
  simp only [movePalm, palmGroup, CONF]
  split_ifs <;> norm_num

/-- C3: after one run of `init` from the freshly loaded script, `palms` holds
`2 * CONF.palmCount = 24` groups, the one of index `i` at `x = 20.5` for even
`i` and `x = -20.5` for odd `i`, so `CONF.palmCount = 12` on each side;
`arches` holds `CONF.archCount = 8` meshes and `cityBlocks` holds
`CONF.cityBlockCount = 80` meshes, for every stream of random draws. -/
theorem init_counts (env : Env) (inp : InitInput) (mt st : Button) :
    (init env inp (initialState mt st)).palms.length = 2 * CONF.palmCount ∧
    (init env inp (initialState mt st)).palms.length = 24 ∧
    (init env inp (initialState mt st)).palms.map (fun p => p.position.x)
        = (List.range 24).map (fun i => if i % 2 = 0 then (20.5 : ℚ) else -20.5) ∧
    (init env inp (initialState mt st)).palms.countP (fun p => p.position.x = 20.5)
        = CONF.palmCount ∧
    (init env inp (initialState mt st)).palms.countP (fun p => p.position.x = -20.5)
        = CONF.palmCount ∧
    (init env inp (initialState mt st)).arches.length = CONF.archCount ∧
    (init env inp (initialState mt st)).arches.length = 8 ∧
    (init env inp (initialState mt st)).cityBlocks.length = CONF.cityBlockCount ∧
    (init env inp (initialState mt st)).cityBlocks.length = 80 := by
  rw [init_palms, init_arches, init_cityBlocks]
  refine ⟨?_, ?_, ?_, ?_, ?_, ?_, ?_, ?_, ?_⟩
  · simp [CONF]
  · simp
  · rw [List.map_map, List.map_map]
    exact List.map_congr_left (fun i _ => movePalm_palmGroup_x inp.delta i)
  · have h : ∀ i ∈ List.range 24,
        (((fun p : Object3D => decide (p.position.x = 20.5)) ∘ movePalm inp.delta ∘ palmGroup) i
          = true ↔ (fun i => decide (i % 2 = 0)) i = true) := by
      intro i _
      simp only [Function.comp, movePalm_palmGroup_x, decide_eq_true_eq]
      split_ifs with hi
      · simp [hi]
      · simp [hi]
        norm_num
    rw [List.map_map, List.countP_map, List.countP_congr h]
    decide
  · have h : ∀ i ∈ List.range 24,
        (((fun p : Object3D => decide (p.position.x = -20.5)) ∘ movePalm inp.delta ∘ palmGroup) i
          = true ↔ (fun i => decide (i % 2 ≠ 0)) i = true) := by
      intro i _
      simp only [Function.comp, movePalm_palmGroup_x, decide_eq_true_eq]
      split_ifs with hi
      · simp [hi]
        norm_num
      · simp [hi]
    rw [List.map_map, List.countP_map, List.countP_congr h]
    decide
  · simp [CONF]
  · simp
  · simp [CONF]
  · simp

/-! ## The grid buffer and the vertex loop -/

theorem builtGrid_vertex (i : Nat) (hi : i < 10201) :
    builtGrid.vertex i
      = ⟨8 * ((i % 101 : Nat) : ℚ) - 400, 0, 10 * ((i / 101 : Nat) : ℚ) - 500⟩ := by
  simp only [builtGrid, BufferAttribute.applyRotationX, PlaneGeometry]
  rw [if_pos (by omega)]
  simp only [Vector3.mk.injEq]
  push_cast
  refine ⟨by ring, by ring, by ring⟩

theorem builtGrid_vertex_out (i : Nat) (hi : ¬ i < 10201) : builtGrid.vertex i = ⟨0, 0, 0⟩ := by
  simp only [builtGrid, BufferAttribute.applyRotationX, PlaneGeometry]
  rw [if_neg (by omega)]
  simp

theorem builtGrid_getY (i : Nat) : builtGrid.getY i = 0 := by
  unfold BufferAttribute.getY
  by_cases hi : i < 10201
  · rw [builtGrid_vertex i hi]
  · rw [builtGrid_vertex_out i hi]

theorem gridVertexUpdate_eq (env : Env) (time beat : ℚ) (orig pos : BufferAttribute) (i : Nat) :
    gridVertexUpdate env time beat orig pos i = pos.setZ i (gridValue env time beat orig i) := by
  simp only [gridVertexUpdate, gridValue]
  split_ifs <;> rfl

theorem gridLoop_count (env : Env) (time beat : ℚ) (orig pos : BufferAttribute) (n : Nat) :
    ((List.range n).foldl (fun q i => gridVertexUpdate env time beat orig q i) pos).count
      = pos.count := by
  induction n with
  | zero => rfl
  | succ n ih =>
    rw [List.range_succ, List.foldl_append, List.foldl_cons, List.foldl_nil,
      gridVertexUpdate_eq]
    exact ih

theorem gridLoop_vertex (env : Env) (time beat : ℚ) (orig pos : BufferAttribute) (n j : Nat) :
    ((List.range n).foldl (fun q i => gridVertexUpdate env time beat orig q i) pos).vertex j
      = if j < n then { pos.vertex j with z := gridValue env time beat orig j }
        else pos.vertex j := by
  induction n with
  | zero => simp
  | succ n ih =>
    rw [List.range_succ, List.foldl_append, List.foldl_cons, List.foldl_nil,
      gridVertexUpdate_eq]
    show (if j = n then _ else _) = _
    by_cases hjn : j = n
    · subst hjn
      rw [if_pos rfl, ih, if_neg (lt_irrefl _), if_pos (Nat.lt_succ_self _)]
    · rw [if_neg hjn, ih]
      by_cases hlt : j < n
      · rw [if_pos hlt, if_pos (Nat.lt_succ_of_lt hlt)]
      · rw [if_neg hlt, if_neg (by omega)]

theorem gridWave_vertex (env : Env) (time : ℚ) (g : GridPlane) (j : Nat) :
    (gridWave env time g).position.vertex j
      = if j < g.position.count then
          { g.position.vertex j with
            z := gridValue env time (env.sin (time * 8) * 0.5 + 0.5) g.originalPos j }
        else g.position.vertex j := by
  simp only [gridWave]
  exact gridLoop_vertex env time _ g.originalPos g.position g.position.count j

theorem gridWave_built (env : Env) (time : ℚ) (g : GridPlane) (h : GridBuilt g) :
    GridBuilt (gridWave env time g) := by
  obtain ⟨ho, hm, hc, hv⟩ := h
  refine ⟨ho, hm, ?_, ?_⟩
  · simp only [gridWave]
    rw [gridLoop_count]
    exact hc
  · intro j
    rw [gridWave_vertex]
    split_ifs
    · exact hv j
    · exact hv j

theorem animate_gridPlane (env : Env) (d t : ℚ) (s : State) :
    (animate env d t s).gridPlane = s.gridPlane.map (gridWave env t) := by
  unfold animate origAnimate tweenUpdate
  cases s.tronBeam <;> rfl

theorem init_gridPlane (env : Env) (inp : InitInput) (mt st : Button) :
    ∃ g, (init env inp (initialState mt st)).gridPlane = some g ∧ GridBuilt g := by
  refine ⟨gridWave env inp.time ⟨builtGrid, builtGrid, ⟨0, -4, 0⟩⟩, ?_, ?_⟩
  · simp [init, animate_gridPlane, setupAudio, createSleekCar, createTronStation,
      createWiderArches, createNeonPalms, createNeonCity, createSoundWaveGrid, initialState,
      foldl_push_arches, foldl_push_palms, foldl_push_cityBlocks, builtGrid]
  · apply gridWave_built
    exact ⟨rfl, rfl, rfl, fun _ => ⟨rfl, rfl⟩⟩

theorem runFrames_gridPlane (env : Env) (frames : List Frame) (s : State)
    (h : ∃ g, s.gridPlane = some g ∧ GridBuilt g) :
    ∃ g, (runFrames env frames s).gridPlane = some g ∧ GridBuilt g := by
  induction frames generalizing s with
  | nil => simpa [runFrames] using h
  | cons f fs ih =>
    simp only [runFrames, List.foldl_cons]
    apply ih
    obtain ⟨g, hg, hb⟩ := h
    exact ⟨gridWave env f.time g, by rw [animate_gridPlane, hg]; rfl,
      gridWave_built env f.time g hb⟩

theorem animate_grid_vertex (env : Env) (d t : ℚ) (s : State)
    (h : ∃ g, s.gridPlane = some g ∧ GridBuilt g) :
    ∃ g, (animate env d t s).gridPlane = some g ∧ GridBuilt g ∧
      ∀ i, i < 10201 → g.position.vertex i
        = ⟨8 * ((i % 101 : Nat) : ℚ) - 400, 0,
            gridValue env t (env.sin (t * 8) * 0.5 + 0.5) builtGrid i⟩ := by
  obtain ⟨g, hg, hb⟩ := h
  refine ⟨gridWave env t g, by rw [animate_gridPlane, hg]; rfl, gridWave_built env t g hb, ?_⟩
  intro i hi
  obtain ⟨ho, _, hc, hv⟩ := hb
  rw [gridWave_vertex, hc, if_pos hi, ho]
  have hx := (hv i).1
  have hy := (hv i).2
  rw [builtGrid_vertex i hi] at hx hy
  simp only [Vector3.mk.injEq, and_true]
  exact ⟨hx, hy⟩

/-- The vertex loop never moves a vertex vertically: after any frame every
vertex of the grid is at world height `-4`. -/
theorem animate_grid_world_y (env : Env) (d t : ℚ) (s : State)
    (h : ∃ g, s.gridPlane = some g ∧ GridBuilt g) :
    ∃ g, (animate env d t s).gridPlane = some g ∧ ∀ i, (g.world i).y = -4 := by
  obtain ⟨g, hg, hb, _⟩ := animate_grid_vertex env d t s h
  refine ⟨g, hg, fun i => ?_⟩
  obtain ⟨_, hm, _, hv⟩ := hb
  have hy := (hv i).2
  have h0 : (builtGrid.vertex i).y = 0 := builtGrid_getY i
  simp only [GridPlane.world, BufferAttribute.getY, hm, hy, h0]
  norm_num

/-! ## C5, C9 : the axis the wave is written to -/

/-- C5 (the code departs from it): in the sample environment (noise `1/2`,
`sin` 0, so beat `1/2`) the frame at time 0 leaves vertex 0 of the grid, built
at `x = -400` and depth `-500` outside the flat band, at world position
`(-400, -4, 60)`: the displacement `60 = specHeight (1/2) (-400) (specBeat 0)`
has been written over the depth, and the height is still `-4`, not
`-4 + 60`. -/
theorem grid_wave_overwrites_depth :
    ∃ g, (animate sampleEnv 0 0 (init sampleEnv sampleInput
          (initialState sampleButton sampleButton))).gridPlane = some g ∧
      g.originalPos.vertex 0 = ⟨-400, 0, -500⟩ ∧
      ¬ |g.originalPos.getX 0| < CONF.roadWidth / 2 + 5 ∧
      specHeight (sampleEnv.noise2D (g.originalPos.getX 0 * 0.02)
          (g.originalPos.getY 0 * 0.01 + 0 * 0.5))
        (g.originalPos.getX 0) (specBeat (sampleEnv.sin (0 * 8))) = 60 ∧
      g.world 0 = ⟨-400, -4, 60⟩ ∧
      (g.world 0).y ≠ -4 + 60 ∧ (g.world 0).z ≠ -500 := by
  obtain ⟨g, hg, hb, hv⟩ := animate_grid_vertex sampleEnv 0 0 _
    (init_gridPlane sampleEnv sampleInput sampleButton sampleButton)
  obtain ⟨ho, hm, _, _⟩ := hb
  have h0 : builtGrid.vertex 0 = ⟨-400, 0, -500⟩ := by
    rw [builtGrid_vertex 0 (by norm_num)]
    norm_num
  have hval : gridValue sampleEnv 0 (sampleEnv.sin (0 * 8) * 0.5 + 0.5) builtGrid 0 = 60 := by
    simp only [gridValue, BufferAttribute.getX, BufferAttribute.getY, h0, sampleEnv, CONF]
    norm_num
  have hw : g.world 0 = ⟨-400, -4, 60⟩ := by
    simp only [GridPlane.world, BufferAttribute.getX, BufferAttribute.getY,
      BufferAttribute.getZ, hv 0 (by norm_num), hm, hval]
    norm_num
  refine ⟨g, hg, by rw [ho, h0], ?_, ?_, hw, ?_, ?_⟩
  · rw [ho]
    simp only [BufferAttribute.getX, h0, CONF]
    norm_num
  · rw [ho]
    simp only [BufferAttribute.getX, h0, specHeight, specBeat, sampleEnv]
    norm_num
  · rw [hw]
    norm_num
  · rw [hw]
    norm_num

/-- C9 (the code departs from it): in the attribute cloned into
`originalPos` the Y component of every vertex is 0, while the depth of the
vertex is its Z component, `-500` for vertex 0 and `500` for vertex 10200; so
`orig.getY(i)` is not the depth, and the second argument of `noise2D`,
`orig.getY(i) * 0.01 + time * 0.5`, is the same for all vertices. -/
theorem originalPos_getY_is_zero (s : State) :
    ∃ g, (createSoundWaveGrid s).gridPlane = some g ∧
      (∀ i, g.originalPos.getY i = 0) ∧
      g.originalPos.getZ 0 = -500 ∧ g.originalPos.getZ 10200 = 500 ∧
      (g.world 0).z = -500 ∧ (g.world 10200).z = 500 ∧
      g.originalPos.getY 0 ≠ g.originalPos.getZ 0 ∧
      (∀ (t : ℚ) (i j : Nat),
        g.originalPos.getY i * 0.01 + t * 0.5 = g.originalPos.getY j * 0.01 + t * 0.5) := by
  have h0 : builtGrid.vertex 0 = ⟨-400, 0, -500⟩ := by
    rw [builtGrid_vertex 0 (by norm_num)]
    norm_num
  have h1 : builtGrid.vertex 10200 = ⟨400, 0, 500⟩ := by
    rw [builtGrid_vertex 10200 (by norm_num)]
    norm_num
  refine ⟨⟨builtGrid, builtGrid, ⟨0, -4, 0⟩⟩, rfl, builtGrid_getY, ?_, ?_, ?_, ?_, ?_, ?_⟩
  · simp [BufferAttribute.getZ, h0]
  · simp [BufferAttribute.getZ, h1]
  · simp [GridPlane.world, BufferAttribute.getZ, h0]
  · simp [GridPlane.world, BufferAttribute.getZ, h1]
  · simp only [BufferAttribute.getZ, BufferAttribute.getY, h0]
    norm_num
  · intro t i j
    show builtGrid.getY i * 0.01 + t * 0.5 = builtGrid.getY j * 0.01 + t * 0.5
    rw [builtGrid_getY, builtGrid_getY]

/-! ## C6 : the flat band -/

theorem band_of_cell (m : Nat) (ix : Nat) (hm : m = ix ∨ m = ix + 1)
    (h1 : 8 * ((ix : Nat) : ℚ) - 400 ≤ roadOuterEdge)
    (h2 : -roadOuterEdge ≤ 8 * ((ix + 1 : Nat) : ℚ) - 400) :
    |8 * ((m : Nat) : ℚ) - 400| < CONF.roadWidth / 2 + 5 := by
  simp only [roadOuterEdge, CONF] at h1 h2
  simp only [CONF]
  push_cast at h2
  have hle : ix ≤ 51 := by
    by_contra hc
    have : (52 : ℚ) ≤ ix := by exact_mod_cast Nat.lt_of_not_le hc
    norm_num at h1
    linarith
  have hge : 48 ≤ ix := by
    by_contra hc
    have : (ix : ℚ) ≤ 47 := by exact_mod_cast Nat.le_of_lt_succ (Nat.lt_of_not_le hc)
    norm_num at h2
    linarith
  have hle' : (ix : ℚ) ≤ 51 := by exact_mod_cast hle
  have hge' : (48 : ℚ) ≤ ix := by exact_mod_cast hge
  rw [abs_lt]
  rcases hm with rfl | rfl
  · constructor <;> norm_num <;> linarith
  · push_cast
    constructor <;> norm_num <;> linarith

/-- What the flat-band branch does: in every state reached from `init` by
frames, for every time, noise function and `sin`, a frame hands 0 to `setZ`
for every grid vertex whose `|x|` is below `CONF.roadWidth / 2 + 5 = 17.5`;
the grid columns are at `x = -400 + 8 k`, and each of the four corners of every
grid cell whose span in x meets the road with its edge lines
(`|x| ≤ roadOuterEdge = 13.3`) is such a vertex.  Vertex 50 (`x = 0`) is one.
The component `setZ` writes is the depth of the vertex. -/
theorem grid_flat_over_road (env : Env) (inp : InitInput) (mt st : Button)
    (frames : List Frame) (d t : ℚ) :
    ∃ g, (animate env d t (runFrames env frames
          (init env inp (initialState mt st)))).gridPlane = some g ∧
      g.position.count = 10201 ∧
      (∀ i, i < g.position.count → g.originalPos.getX i = -400 + 8 * ((i % 101 : Nat) : ℚ)) ∧
      (∀ i, i < g.position.count → |g.originalPos.getX i| < CONF.roadWidth / 2 + 5 →
        g.position.getZ i = 0 ∧ (g.world i).y = -4) ∧
      (∀ ix iy, ix < 100 → iy < 100 →
        g.originalPos.getX (iy * 101 + ix) ≤ roadOuterEdge →
        -roadOuterEdge ≤ g.originalPos.getX (iy * 101 + ix + 1) →
        ∀ v ∈ [iy * 101 + ix, iy * 101 + ix + 1, (iy + 1) * 101 + ix, (iy + 1) * 101 + ix + 1],
          |g.originalPos.getX v| < CONF.roadWidth / 2 + 5 ∧
          g.position.getZ v = 0 ∧ (g.world v).y = -4) ∧
      g.originalPos.getX 50 = 0 ∧ g.position.getZ 50 = 0 := by
  obtain ⟨g, hg, hb, hv⟩ := animate_grid_vertex env d t _
    (runFrames_gridPlane env frames _ (init_gridPlane env inp mt st))
  obtain ⟨ho, hm, hc, _⟩ := hb
  have hX : ∀ i, i < 10201 → g.originalPos.getX i = -400 + 8 * ((i % 101 : Nat) : ℚ) := by
    intro i hi
    rw [ho]
    simp only [BufferAttribute.getX, builtGrid_vertex i hi]
    ring
  have hflat : ∀ i, i < 10201 → |g.originalPos.getX i| < CONF.roadWidth / 2 + 5 →
      g.position.getZ i = 0 ∧ (g.world i).y = -4 := by
    intro i hi hx
    rw [ho] at hx
    have hz : gridValue env t (env.sin (t * 8) * 0.5 + 0.5) builtGrid i = 0 := by
      simp only [gridValue]
      rw [if_pos hx]
    simp only [GridPlane.world, BufferAttribute.getZ, BufferAttribute.getY, hv i hi, hm, hz]
    norm_num
  refine ⟨g, hg, hc, ?_, ?_, ?_, ?_, ?_⟩
  · intro i hi
    exact hX i (hc ▸ hi)
  · intro i hi hx
    exact hflat i (hc ▸ hi) hx
  · intro ix iy hix hiy h1 h2 v hvm
    have hvlt : v < 10201 := by
      simp only [List.mem_cons, List.mem_singleton, List.not_mem_nil, or_false] at hvm
      omega
    have hmod : v % 101 = ix ∨ v % 101 = ix + 1 := by
      simp only [List.mem_cons, List.mem_singleton, List.not_mem_nil, or_false] at hvm
      omega
    rw [hX _ (by omega)] at h1 h2
    have e1 : (iy * 101 + ix) % 101 = ix := by omega
    have e2 : (iy * 101 + ix + 1) % 101 = ix + 1 := by omega
    rw [e1] at h1
    rw [e2] at h2
    have hband : |g.originalPos.getX v| < CONF.roadWidth / 2 + 5 := by
      rw [hX v hvlt]
      have := band_of_cell (v % 101) ix hmod (by linarith) (by linarith)
      rwa [show (-400 : ℚ) + 8 * ((v % 101 : Nat) : ℚ) = 8 * ((v % 101 : Nat) : ℚ) - 400 by ring]
    exact ⟨hband, hflat v hvlt hband⟩
  · rw [hX 50 (by norm_num)]
    norm_num
  · refine (hflat 50 (by norm_num) ?_).1
    rw [hX 50 (by norm_num)]
    norm_num [CONF]

/-- C6 (the code departs from it): the branch that keeps the road flat calls
`pos.setZ(i, 0)`, and the component it writes is the depth of the vertex, not
its displacement.  After a frame, the band vertices 48 and 10148, built at
`x = -16` and at depths `-500` and `500`, are both at world `(-16, -4, 0)`:
the band is not left in place with displacement 0, all its rows are moved onto
the line of depth 0. -/
theorem flat_band_collapses_depth :
    ∃ g, (animate sampleEnv 0 0 bootState).gridPlane = some g ∧
      g.originalPos.vertex 48 = ⟨-16, 0, -500⟩ ∧
      g.originalPos.vertex 10148 = ⟨-16, 0, 500⟩ ∧
      |g.originalPos.getX 48| < CONF.roadWidth / 2 + 5 ∧
      |g.originalPos.getX 10148| < CONF.roadWidth / 2 + 5 ∧
      g.world 48 = ⟨-16, -4, 0⟩ ∧ g.world 10148 = ⟨-16, -4, 0⟩ ∧
      (g.world 48).z ≠ -500 ∧ (g.world 10148).z ≠ 500 := by
  obtain ⟨g, hg, hb, hv⟩ := animate_grid_vertex sampleEnv 0 0 bootState
    (init_gridPlane sampleEnv sampleInput sampleButton sampleButton)
  obtain ⟨ho, hm, _, _⟩ := hb
  have h48 : builtGrid.vertex 48 = ⟨-16, 0, -500⟩ := by
    rw [builtGrid_vertex 48 (by norm_num)]
    norm_num
  have h10148 : builtGrid.vertex 10148 = ⟨-16, 0, 500⟩ := by
    rw [builtGrid_vertex 10148 (by norm_num)]
    norm_num
  have hx48 : |builtGrid.getX 48| < CONF.roadWidth / 2 + 5 := by
    simp only [BufferAttribute.getX, h48, CONF]
    norm_num [abs_lt]
  have hx10148 : |builtGrid.getX 10148| < CONF.roadWidth / 2 + 5 := by
    simp only [BufferAttribute.getX, h10148, CONF]
    norm_num [abs_lt]
  have hval48 : gridValue sampleEnv 0 (sampleEnv.sin (0 * 8) * 0.5 + 0.5) builtGrid 48 = 0 := by
    simp only [gridValue]
    rw [if_pos hx48]
  have hval10148 :
      gridValue sampleEnv 0 (sampleEnv.sin (0 * 8) * 0.5 + 0.5) builtGrid 10148 = 0 := by
    simp only [gridValue]
    rw [if_pos hx10148]
  have hw48 : g.world 48 = ⟨-16, -4, 0⟩ := by
    simp only [GridPlane.world, BufferAttribute.getX, BufferAttribute.getY,
      BufferAttribute.getZ, hv 48 (by norm_num), hm, hval48]
    norm_num
  have hw10148 : g.world 10148 = ⟨-16, -4, 0⟩ := by
    simp only [GridPlane.world, BufferAttribute.getX, BufferAttribute.getY,
      BufferAttribute.getZ, hv 10148 (by norm_num), hm, hval10148]
    norm_num
  refine ⟨g, hg, by rw [ho, h48], by rw [ho, h10148], by rw [ho]; exact hx48,
    by rw [ho]; exact hx10148, hw48, hw10148, ?_, ?_⟩
  · rw [hw48]
    norm_num
  · rw [hw10148]
    norm_num

/-! ## C10 : city blocks and the road corridor -/

theorem moveCityBlock_x (d : ℚ) (b : Object3D) :
    (moveCityBlock d b).position.x = b.position.x ∧ (moveCityBlock d b).scale = b.scale := by
  simp [moveCityBlock]

theorem foldl_moveCityBlock_x (frames : List Frame) (b : Object3D) :
    (frames.foldl (fun q f => moveCityBlock f.delta q) b).position.x = b.position.x ∧
      (frames.foldl (fun q f => moveCityBlock f.delta q) b).scale = b.scale := by
  induction frames generalizing b with
  | nil => simp
  | cons f fs ih =>
    simp only [List.foldl_cons]
    rw [(ih _).1, (ih _).2]
    exact moveCityBlock_x f.delta b

theorem cityBlock_x (rnd : Nat → ℚ) (hr : UnitDraws rnd) (i : Nat) :
    40 ≤ |(cityBlock rnd i).position.x| ∧ 10 ≤ (cityBlock rnd i).scale.x ∧
      (cityBlock rnd i).scale.x < 25 := by
  have hw := hr (6 * i)
  simp only [cityBlock]
  refine ⟨?_, by linarith [hw.1], by linarith [hw.2]⟩
  split_ifs with h1 h2
  · norm_num
  · norm_num
  · exact not_lt.mp h1

/-- C10 (as stated) fails: with draws in `[0, 1)` that give the first block
`w = 24` and `x = 40`, the block's footprint in x is `[28, 52]`, which meets
the corridor `[-30, 30]`. -/
theorem cityBlock_meets_corridor :
    UnitDraws nearRoadInput.random ∧
    ∃ b ∈ (init sampleEnv nearRoadInput (initialState sampleButton sampleButton)).cityBlocks,
      b.position.x = 40 ∧ b.scale.x = 24 ∧ footprintMeets (-30) 30 b := by
  constructor
  · intro k
    simp only [nearRoadInput]
    split_ifs <;> norm_num
  · rw [init_cityBlocks]
    refine ⟨_, List.mem_map.mpr ⟨cityBlock nearRoadInput.random 0,
      List.mem_map.mpr ⟨0, List.mem_range.mpr (by norm_num), rfl⟩, rfl⟩, ?_, ?_, ?_⟩
    · norm_num [moveCityBlock, cityBlock, nearRoadInput]
    · norm_num [moveCityBlock, cityBlock, nearRoadInput]
    · norm_num [footprintMeets, moveCityBlock, cityBlock, nearRoadInput]

/-- C10 (amended): for draws in `[0, 1)`, after `init` and any list of frames
every city block has its centre at `|x| ≥ 40` and its x-scale in `[10, 25)`, so
its footprint in x does not meet `[-27.5, 27.5]`, nor the road with its edge
lines. -/
theorem cityBlocks_clear_of_road (env : Env) (inp : InitInput) (mt st : Button)
    (frames : List Frame) (hr : UnitDraws inp.random) :
    ∀ b ∈ (runFrames env frames (init env inp (initialState mt st))).cityBlocks,
      40 ≤ |b.position.x| ∧ 10 ≤ b.scale.x ∧ b.scale.x < 25 ∧
      ¬ footprintMeets (-27.5) 27.5 b ∧ ¬ footprintMeets (-roadOuterEdge) roadOuterEdge b := by
  intro b hb
  rw [runFrames_cityBlocks, init_cityBlocks] at hb
  simp only [List.map_map, List.mem_map, List.mem_range] at hb
  obtain ⟨i, _, rfl⟩ := hb
  simp only [Function.comp]
  have hx := (foldl_moveCityBlock_x frames (moveCityBlock inp.delta (cityBlock inp.random i))).1
  have hs := (foldl_moveCityBlock_x frames (moveCityBlock inp.delta (cityBlock inp.random i))).2
  rw [(moveCityBlock_x _ _).1] at hx
  rw [(moveCityBlock_x _ _).2] at hs
  obtain ⟨h40, h10, h25⟩ := cityBlock_x inp.random hr i
  simp only [footprintMeets, roadOuterEdge, CONF, hx, hs]
  refine ⟨h40, h10, h25, ?_, ?_⟩
  · rintro ⟨ha, hb⟩
    rcases le_abs'.mp h40 with h | h
    · norm_num at hb
      linarith
    · norm_num at ha
      linarith
  · rintro ⟨ha, hb⟩
    rcases le_abs'.mp h40 with h | h
    · norm_num at hb
      linarith
    · norm_num at ha
      linarith

/-- C10 (amended), exercised: draws `1/2` and one frame. -/
theorem cityBlocks_clear_of_road_witness :
    UnitDraws sampleInput.random ∧
    ∀ b ∈ (runFrames sampleEnv sampleFrames
        (init sampleEnv sampleInput (initialState sampleButton sampleButton))).cityBlocks,
      40 ≤ |b.position.x| ∧ 10 ≤ b.scale.x ∧ b.scale.x < 25 ∧
      ¬ footprintMeets (-27.5) 27.5 b ∧ ¬ footprintMeets (-roadOuterEdge) roadOuterEdge b :=
  have hr : UnitDraws sampleInput.random := fun _ => by norm_num [sampleInput]
  ⟨hr, cityBlocks_clear_of_road sampleEnv sampleInput sampleButton sampleButton sampleFrames hr⟩

/-! ## Objects present in every state after init -/

theorem animate_objects (env : Env) (d t : ℚ) (s : State) (h : ObjectsCreated s) :
    ObjectsCreated (animate env d t s) := by
  obtain ⟨h1, h2, h3, h4⟩ := h
  obtain ⟨o, ho⟩ := Option.isSome_iff_exists.mp h1
  simp only [ObjectsCreated, animate, origAnimate, tweenUpdate, ho]
  exact ⟨rfl, h2, h3, h4⟩

theorem init_objects (env : Env) (inp : InitInput) (mt st : Button) :
    ObjectsCreated (init env inp (initialState mt st)) := by
  unfold init
  apply animate_objects
  simp [ObjectsCreated, setupAudio, createSleekCar, createTronStation, createWiderArches,
    createNeonPalms, createNeonCity, createSoundWaveGrid, initialState, foldl_push_arches,
    foldl_push_palms, foldl_push_cityBlocks]

theorem resumeAudioContext_objects (s : State) (h : ObjectsCreated s) :
    ObjectsCreated (resumeAudioContext s) := by
  obtain ⟨h1, h2, h3, h4⟩ := h
  obtain ⟨m, hm⟩ := Option.isSome_iff_exists.mp h2
  unfold resumeAudioContext
  rcases hl : s.audioListener with _ | _ | _ <;> simp only [hm] <;> split_ifs <;>
    simp [ObjectsCreated, h1, h2, h3, h4]

theorem handle_objects (env : Env) (e : Event) (s : State) (h : ObjectsCreated s) :
    ObjectsCreated (handle env e s).state := by
  have hr := resumeAudioContext_objects s h
  obtain ⟨h1, h2, h3, h4⟩ := h
  obtain ⟨o, ho⟩ := Option.isSome_iff_exists.mp h1
  obtain ⟨m, hm⟩ := Option.isSome_iff_exists.mp h2
  obtain ⟨b, hb⟩ := Option.isSome_iff_exists.mp h3
  obtain ⟨v, hv⟩ := Option.isSome_iff_exists.mp h4
  cases e with
  | frame d t => exact animate_objects env d t s ⟨h1, h2, h3, h4⟩
  | fireTronBeam =>
    simp only [handle, fireTronBeam, hb]
    split_ifs <;> simp [ObjectsCreated, ho, h2, h3, h4]
  | beamFadeOut => simp [handle, beamFadeOut, ho, ObjectsCreated, h2, h3, h4]
  | toggleMusic =>
    simp only [handle, toggleMusic, hm]
    split_ifs <;> simp [ObjectsCreated, h1, h3, h4]
  | toggleSound =>
    simp only [handle, toggleSound]
    split_ifs <;> simp [ObjectsCreated, h1, h2, h3, h4]
  | playHoverSound vol =>
    obtain ⟨r1, r2, r3, r4⟩ := hr
    obtain ⟨w, hw⟩ := Option.isSome_iff_exists.mp r4
    simp only [handle, playHoverSound, hw]
    split_ifs <;> rcases vol.orDefault.toFloat with _ | v <;>
      simp [ObjectsCreated, r1, r2, r3, r4]
  | resumeAudioContext => exact hr
  | musicLoaded => simp [handle, musicLoaded, hm, ObjectsCreated, h1, h3, h4]
  | beamLoaded => simp [handle, beamLoaded, hb, ObjectsCreated, h1, h2, h4]
  | hoverLoaded => simp [handle, hoverLoaded, hv, ObjectsCreated, h1, h2, h3]
  | musicEnded => simp [handle, ObjectsCreated, h1, h2, h3, h4]
  | beamEnded => simp [handle, ObjectsCreated, h1, h2, h3, h4]
  | hoverEnded => simp [handle, ObjectsCreated, h1, h2, h3, h4]

theorem reachable_objects (env : Env) (s : State) (h : Reachable env s) : ObjectsCreated s := by
  induction h with
  | boot mt st inp => exact init_objects env inp mt st
  | step e s _ ih => exact handle_objects env e s ih

/-! ## The audio globals after init -/

theorem init_audio (env : Env) (inp : InitInput) (mt st : Button) :
    (init env inp (initialState mt st)).bgMusic = some {} ∧
    (init env inp (initialState mt st)).sfxBeam = some {} ∧
    (init env inp (initialState mt st)).sfxHover = some {} ∧
    (init env inp (initialState mt st)).musicPlaying = true ∧
    (init env inp (initialState mt st)).soundEnabled = true ∧
    (init env inp (initialState mt st)).audioListener = some inp.suspended := by
  simp [init, animate, origAnimate, tweenUpdate, setupAudio, createSleekCar,
    createTronStation, createWiderArches, createNeonPalms, createNeonCity,
    createSoundWaveGrid, initialState, foldl_push_arches, foldl_push_palms,
    foldl_push_cityBlocks]

theorem resumeAudioContext_effects (s : State) :
    (resumeAudioContext s).sfxHover = s.sfxHover ∧
    (resumeAudioContext s).sfxBeam = s.sfxBeam ∧
    (resumeAudioContext s).soundEnabled = s.soundEnabled ∧
    (resumeAudioContext s).musicPlaying = s.musicPlaying := by
  unfold resumeAudioContext
  rcases hl : s.audioListener with _ | _ | _ <;> rcases hm : s.bgMusic with _ | m <;>
    simp only [hm] <;> (try split_ifs) <;> simp

/-! ## C4 : the two toggles -/

/-- Before `init` (`bgMusic` undefined) `toggleMusic` would throw at
`bgMusic.pause()` with `musicPlaying` unwritten; `init` registers the listener
only after `setupAudio`, so no reachable state is of this kind. -/
theorem toggleMusic_before_init_keeps_flag :
    (toggleMusic (initialState sampleButton sampleButton)).threw = true ∧
    (initialState sampleButton sampleButton).musicPlaying = true ∧
    (toggleMusic (initialState sampleButton sampleButton)).state.musicPlaying = true ∧
    (toggleMusic (initialState sampleButton sampleButton)).state.musicPlaying
      ≠ !(initialState sampleButton sampleButton).musicPlaying := by
  simp [toggleMusic, initialState]

/-- The effect of `toggleMusic` where `bgMusic` exists: it does not throw,
negates `musicPlaying`, leaves `soundEnabled`, and a second call restores
`musicPlaying`. -/
theorem toggleMusic_negates (s : State) (h : s.bgMusic ≠ none) :
    (toggleMusic s).threw = false ∧
    (toggleMusic s).state.musicPlaying = (!s.musicPlaying) ∧
    (toggleMusic s).state.soundEnabled = s.soundEnabled ∧
    (toggleMusic (toggleMusic s).state).threw = false ∧
    (toggleMusic (toggleMusic s).state).state.musicPlaying = s.musicPlaying ∧
    (toggleMusic (toggleMusic s).state).state.soundEnabled = s.soundEnabled := by
  obtain ⟨m, hm⟩ := Option.ne_none_iff_exists'.mp h
  refine ⟨?_, ?_, ?_, ?_, ?_, ?_⟩
  · simp only [toggleMusic, hm]
  · simp only [toggleMusic, hm]
    split_ifs <;> rfl
  · simp only [toggleMusic, hm]
    split_ifs <;> rfl
  · simp only [toggleMusic, hm]
    split_ifs <;> rfl
  · simp only [toggleMusic, hm]
    cases hp : s.musicPlaying <;> simp
  · simp only [toggleMusic, hm]
    cases hp : s.musicPlaying <;> simp

/-- The effect of `toggleSound`, in any state: it negates `soundEnabled`,
leaves `musicPlaying`, and a second call restores `soundEnabled`. -/
theorem toggleSound_negates (s : State) :
    (toggleSound s).soundEnabled = (!s.soundEnabled) ∧
    (toggleSound s).musicPlaying = s.musicPlaying ∧
    (toggleSound (toggleSound s)).soundEnabled = s.soundEnabled ∧
    (toggleSound (toggleSound s)).musicPlaying = s.musicPlaying := by
  refine ⟨?_, ?_, ?_, ?_⟩
  · simp only [toggleSound]
    split_ifs <;> rfl
  · simp only [toggleSound]
    split_ifs <;> rfl
  · simp only [toggleSound]
    cases hp : s.soundEnabled <;> simp
  · simp only [toggleSound]
    cases hp : s.soundEnabled <;> simp

/-- C4: in every state the page can be in once `init` has run, `toggleMusic`
returns without throwing, negates `musicPlaying` and leaves `soundEnabled`
unchanged, and two calls in a row leave `musicPlaying` (and `soundEnabled`) at
the value before the two calls; `toggleSound` negates `soundEnabled` and
leaves `musicPlaying` unchanged, and two calls in a row leave `soundEnabled`
(and `musicPlaying`) at the value before the two calls, this in any state at
all. -/
theorem toggles_negate_and_restore (env : Env) (s : State) (h : Reachable env s) :
    ((toggleMusic s).threw = false ∧
      (toggleMusic s).state.musicPlaying = (!s.musicPlaying) ∧
      (toggleMusic s).state.soundEnabled = s.soundEnabled ∧
      (toggleMusic (toggleMusic s).state).threw = false ∧
      (toggleMusic (toggleMusic s).state).state.musicPlaying = s.musicPlaying ∧
      (toggleMusic (toggleMusic s).state).state.soundEnabled = s.soundEnabled) ∧
    ((toggleSound s).soundEnabled = (!s.soundEnabled) ∧
      (toggleSound s).musicPlaying = s.musicPlaying ∧
      (toggleSound (toggleSound s)).soundEnabled = s.soundEnabled ∧
      (toggleSound (toggleSound s)).musicPlaying = s.musicPlaying) ∧
    (∀ s' : State,
      (toggleSound s').soundEnabled = (!s'.soundEnabled) ∧
      (toggleSound s').musicPlaying = s'.musicPlaying ∧
      (toggleSound (toggleSound s')).soundEnabled = s'.soundEnabled ∧
      (toggleSound (toggleSound s')).musicPlaying = s'.musicPlaying) := by
  have hne : s.bgMusic ≠ none := by
    intro hn
    have := (reachable_objects env s h).2.1
    rw [hn] at this
    exact Bool.noConfusion this
  exact ⟨toggleMusic_negates s hne, toggleSound_negates s, toggleSound_negates⟩

/-- C4, exercised: on the state `init` leaves (`musicPlaying = true`), and on
the state after one click on the music button (`musicPlaying = false`). -/
theorem toggles_negate_and_restore_witness :
    Reachable sampleEnv bootState ∧
    Reachable sampleEnv (toggleMusic bootState).state ∧
    bootState.musicPlaying = true ∧
    (toggleMusic bootState).threw = false ∧
    (toggleMusic bootState).state.musicPlaying = false ∧
    (toggleMusic (toggleMusic bootState).state).state.musicPlaying = true ∧
    (toggleSound bootState).soundEnabled = false ∧
    (toggleSound (toggleSound bootState)).soundEnabled = true :=
  have hr : Reachable sampleEnv bootState :=
    Reachable.boot sampleButton sampleButton sampleInput
  have hr2 : Reachable sampleEnv (toggleMusic bootState).state :=
    Reachable.step Event.toggleMusic bootState hr
  have ha := init_audio sampleEnv sampleInput sampleButton sampleButton
  have hmp : bootState.musicPlaying = true := ha.2.2.2.1
  have hse : bootState.soundEnabled = true := ha.2.2.2.2.1
  have h := toggles_negate_and_restore sampleEnv bootState hr
  have h2 := toggles_negate_and_restore sampleEnv (toggleMusic bootState).state hr2
  ⟨hr, hr2, hmp, h.1.1, by rw [h.1.2.1, hmp]; rfl,
    by rw [h2.1.2.1, h.1.2.1, hmp]; rfl,
    by rw [h.2.1.1, hse]; rfl, by rw [h.2.1.2.2.1, hse]⟩

/-! ## C8 : the beam trigger, twice in a row -/

/-- C8: in every state reachable after `init`, two calls of `fireTronBeam` in
a row both return without throwing, and among the calls they make on `sfxBeam`
there is no `play` that arrives while `isPlaying` is true (a playing sound is
stopped first); in any state where `sfxBeam` is absent the call returns
without throwing and leaves the state as it was. -/
theorem fireTronBeam_twice_safe (env : Env) (s : State) (h : Reachable env s) :
    (fireTronBeam s).threw = false ∧
    (fireTronBeam (fireTronBeam s).state).threw = false ∧
    (∃ beam beam2 new, s.sfxBeam = some beam ∧
      (fireTronBeam (fireTronBeam s).state).state.sfxBeam = some beam2 ∧
      beam2.calls = new ++ beam.calls ∧ AudioCall.play true ∉ new) ∧
    (∀ s' : State, s'.sfxBeam = none →
      (fireTronBeam s').threw = false ∧ (fireTronBeam s').state = s') := by
  obtain ⟨h1, _, h3, _⟩ := reachable_objects env s h
  obtain ⟨o, ho⟩ := Option.isSome_iff_exists.mp h1
  obtain ⟨b, hb⟩ := Option.isSome_iff_exists.mp h3
  refine ⟨?_, ?_, ⟨b, ?_⟩, ?_⟩
  · simp only [fireTronBeam, hb]
    split_ifs <;> simp [ho]
  · simp only [fireTronBeam, hb]
    split_ifs <;> simp [ho, hb, *]
  · cases hs : s.soundEnabled
    · exact ⟨b, [], hb, by simp [fireTronBeam, hb, hs, ho], by simp, by simp⟩
    · cases hp : b.isPlaying
      · exact ⟨(b.play.stop).play, [AudioCall.play false, AudioCall.stop, AudioCall.play false],
          hb, by simp [fireTronBeam, hb, hs, ho, hp, Audio.play],
          by simp [Audio.play, Audio.stop, hp], by simp⟩
      · exact ⟨(b.stop.play.stop).play,
          [AudioCall.play false, AudioCall.stop, AudioCall.play false, AudioCall.stop],
          hb, by simp [fireTronBeam, hb, hs, ho, hp, Audio.play, Audio.stop],
          by simp [Audio.play, Audio.stop], by simp⟩
  · intro s' hn
    simp [fireTronBeam, hn]

/-- C8, exercised on the state `init` leaves. -/
theorem fireTronBeam_twice_safe_witness :
    Reachable sampleEnv (init sampleEnv sampleInput (initialState sampleButton sampleButton)) ∧
    (fireTronBeam (init sampleEnv sampleInput
      (initialState sampleButton sampleButton))).threw = false ∧
    (fireTronBeam (fireTronBeam (init sampleEnv sampleInput
      (initialState sampleButton sampleButton))).state).threw = false :=
  have hr : Reachable sampleEnv
      (init sampleEnv sampleInput (initialState sampleButton sampleButton)) :=
    Reachable.boot sampleButton sampleButton sampleInput
  have h := fireTronBeam_twice_safe sampleEnv _ hr
  ⟨hr, h.1, h.2.1⟩

/-! ## C11 : the sound-effect gate -/

theorem fireTronBeam_effects (s : State) :
    (fireTronBeam s).state.sfxHover = s.sfxHover ∧
    (s.soundEnabled = false → (fireTronBeam s).state.sfxBeam = s.sfxBeam) := by
  unfold fireTronBeam
  rcases hb : s.sfxBeam with _ | b
  · simp [hb]
  · rcases ht : s.tronBeam with _ | o <;> cases hs : s.soundEnabled <;> simp [ht, hs, hb]

theorem playHoverSound_effects (vol : HoverArg) (s : State) :
    (playHoverSound vol s).state.sfxBeam = s.sfxBeam ∧
    (playHoverSound vol s).state.sfxHover =
      (match s.sfxHover with
      | none => none
      | some hover =>
        if s.soundEnabled && hover.buffer then
          match vol.orDefault.toFloat with
          | some v => some ((hoverBase hover).setVolume v).play
          | none => some (hoverBase hover)
        else some hover) ∧
    (playHoverSound vol s).threw =
      (match s.sfxHover with
      | none => false
      | some hover =>
        if s.soundEnabled && hover.buffer then vol.orDefault.toFloat.isNone else false) := by
  obtain ⟨r1, r2, r3, _⟩ := resumeAudioContext_effects s
  rcases hh : s.sfxHover with _ | hover
  · have h1 : (resumeAudioContext s).sfxHover = none := by rw [r1, hh]
    simp only [playHoverSound, h1]
    exact ⟨r2, trivial, trivial⟩
  · have h1 : (resumeAudioContext s).sfxHover = some hover := by rw [r1, hh]
    simp only [playHoverSound, h1, r3]
    by_cases hc : (s.soundEnabled && hover.buffer) = true
    · simp only [if_pos hc]
      rcases vol.orDefault.toFloat with _ | v <;> exact ⟨r2, rfl, rfl⟩
    · simp only [if_neg hc]
      exact ⟨r2, h1, trivial⟩

theorem hoverReadyState_audio :
    hoverReadyState.soundEnabled = true ∧
    hoverReadyState.sfxHover = some ((({} : Audio).setBuffer).setVolume 0.4) := by
  obtain ⟨_, _, h3, _, h5, _⟩ := init_audio sampleEnv sampleInput sampleButton sampleButton
  simp only [hoverReadyState, bootState, hoverLoaded, h3]
  exact ⟨h5, trivial⟩

/-- The value `vol || 0.4` hands to `setVolume`: `0.4` for every falsy
argument (`undefined`, `null`, `false`, `0`, `NaN`, `''`), the number itself
for a non-zero finite number, `1` for `true`; an infinity and the event object
are rejected. -/
theorem orDefault_toFloat (vol : HoverArg) (v : ℚ) :
    (vol.truthy = false → vol.orDefault.toFloat = some 0.4) ∧
    (v ≠ 0 → (HoverArg.number v).orDefault.toFloat = some v) ∧
    (HoverArg.boolean true).orDefault.toFloat = some 1 ∧
    (∀ b, (HoverArg.infinity b).orDefault.toFloat = none) ∧
    HoverArg.event.orDefault.toFloat = none := by
  refine ⟨?_, ?_, rfl, fun _ => rfl, rfl⟩
  · intro h
    simp [HoverArg.orDefault, h, HoverArg.toFloat]
  · intro h
    simp [HoverArg.orDefault, HoverArg.truthy, h, HoverArg.toFloat]

/-- The gate on the sound effects: in every state and for every argument,
while `soundEnabled` is false neither `fireTronBeam` nor `playHoverSound` makes
any call on `sfxBeam` or `sfxHover`; `playHoverSound` makes no call on
`sfxHover` unless `soundEnabled` is true and the buffer of `sfxHover` has loaded
(and never one on `sfxBeam`, nor `fireTronBeam` on `sfxHover`); when both hold
and `setVolume` accepts the value `w` of `vol || 0.4`, it stops a playing
sound, sets the volume to `w` and plays; when `setVolume` rejects the value it
throws and `play` is not called. -/
theorem sound_effects_gated (s : State) (vol : HoverArg) :
    (s.soundEnabled = false →
      (fireTronBeam s).state.sfxBeam = s.sfxBeam ∧
      (fireTronBeam s).state.sfxHover = s.sfxHover ∧
      (playHoverSound vol s).state.sfxBeam = s.sfxBeam ∧
      (playHoverSound vol s).state.sfxHover = s.sfxHover) ∧
    (fireTronBeam s).state.sfxHover = s.sfxHover ∧
    (playHoverSound vol s).state.sfxBeam = s.sfxBeam ∧
    (s.sfxHover = none → (playHoverSound vol s).state.sfxHover = none) ∧
    (∀ hover, s.sfxHover = some hover → ¬ (s.soundEnabled = true ∧ hover.buffer = true) →
      (playHoverSound vol s).state.sfxHover = some hover) ∧
    (∀ hover, s.sfxHover = some hover → s.soundEnabled = true → hover.buffer = true →
      (∀ w, vol.orDefault.toFloat = some w →
        (playHoverSound vol s).state.sfxHover = some ((hoverBase hover).setVolume w).play ∧
        (playHoverSound vol s).threw = false) ∧
      (vol.orDefault.toFloat = none →
        (playHoverSound vol s).state.sfxHover = some (hoverBase hover) ∧
        (playHoverSound vol s).threw = true) ∧
      (∀ w, (((hoverBase hover).setVolume w).play).volume = w ∧
        (((hoverBase hover).setVolume w).play).calls
          = AudioCall.play false :: AudioCall.setVolume w :: (hoverBase hover).calls)) := by
  have hf := fireTronBeam_effects s
  have hp := playHoverSound_effects vol s
  have hnot : ∀ hover, s.sfxHover = some hover →
      ¬ (s.soundEnabled = true ∧ hover.buffer = true) →
      (playHoverSound vol s).state.sfxHover = some hover := by
    intro hover hh hc
    rw [hp.2.1, hh]
    have : ¬ (s.soundEnabled && hover.buffer) = true := by simpa using hc
    simp only [if_neg this]
  have hnone : s.sfxHover = none → (playHoverSound vol s).state.sfxHover = none := by
    intro hh
    rw [hp.2.1, hh]
  refine ⟨?_, hf.1, hp.1, hnone, hnot, ?_⟩
  · intro hs
    refine ⟨hf.2 hs, hf.1, hp.1, ?_⟩
    rcases hh : s.sfxHover with _ | hover
    · exact hnone hh
    · exact hnot hover hh (by simp [hs])
  · intro hover hh hs hb
    have hc : (s.soundEnabled && hover.buffer) = true := by simp [hs, hb]
    refine ⟨?_, ?_, ?_⟩
    · intro w hw
      rw [hp.2.1, hp.2.2, hh]
      simp only [if_pos hc, hw]
      exact ⟨trivial, rfl⟩
    · intro hw
      rw [hp.2.1, hp.2.2, hh]
      simp only [if_pos hc, hw]
      exact ⟨trivial, rfl⟩
    · intro w
      have hbase : (hoverBase hover).isPlaying = false := by
        unfold hoverBase
        cases hp : hover.isPlaying <;> simp [Audio.stop, hp]
      simp [Audio.play, Audio.setVolume, hbase]

/-- C11 (the code departs from it): after `init` and the load of the hover
sound, with sound effects enabled, the `mouseenter` listener calls
`playHoverSound` with the event object and no volume.  `vol || 0.4` is then the
event object, not `0.4`; `setVolume` rejects it, the call throws, and
`sfxHover` has received neither `setVolume(0.4)` nor `play`.  Called with no
argument from the same state, the function sets the volume to `0.4` and
plays. -/
theorem hover_mouseenter_never_plays :
    hoverReadyState.soundEnabled = true ∧
    (∃ hover, hoverReadyState.sfxHover = some hover ∧ hover.buffer = true ∧
      hover.isPlaying = false) ∧
    HoverArg.event.orDefault = HoverArg.event ∧
    HoverArg.event.orDefault.toFloat = none ∧
    (playHoverSound HoverArg.event hoverReadyState).threw = true ∧
    (playHoverSound HoverArg.event hoverReadyState).state.sfxHover
      = hoverReadyState.sfxHover ∧
    (∃ played, (playHoverSound HoverArg.undefined hoverReadyState).state.sfxHover
        = some played ∧
      played.calls.take 2 = [AudioCall.play false, AudioCall.setVolume 0.4] ∧
      played.isPlaying = true ∧ played.volume = 0.4) := by
  obtain ⟨h1, h2⟩ := hoverReadyState_audio
  have he := playHoverSound_effects HoverArg.event hoverReadyState
  have hu := (playHoverSound_effects HoverArg.undefined hoverReadyState).2.1
  rw [h2] at he hu
  have hc : (hoverReadyState.soundEnabled &&
      ((({} : Audio).setBuffer).setVolume 0.4).buffer) = true := by
    rw [h1]
    rfl
  simp only [if_pos hc] at he hu
  refine ⟨h1, ⟨_, h2, rfl, rfl⟩, rfl, rfl, he.2.2, ?_, _, hu, ?_⟩
  · rw [he.2.1, h2]
    rfl
  · refine ⟨rfl, rfl, ?_⟩
    simp [hoverBase, Audio.play, Audio.setVolume]

/-! ## C12 : the music and its toggle -/

theorem animate_music (env : Env) (d t : ℚ) (s : State) :
    (animate env d t s).bgMusic = s.bgMusic ∧
    (animate env d t s).musicPlaying = s.musicPlaying := by
  unfold animate origAnimate tweenUpdate
  cases s.tronBeam <;> exact ⟨rfl, rfl⟩

theorem resumeAudioContext_music (s : State) (h : MusicFollowsToggle s) :
    MusicFollowsToggle (resumeAudioContext s) := by
  have key : ∀ s1 : State, s1.bgMusic = s.bgMusic → s1.musicPlaying = s.musicPlaying →
      MusicFollowsToggle
        (match s1.bgMusic with
         | some music =>
           if s1.musicPlaying && !music.isPlaying then { s1 with bgMusic := some music.play }
           else s1
         | none => s1) := by
    intro s1 hb hp
    rcases hm : s1.bgMusic with _ | m
    · intro music hmus _
      rw [hm] at hmus
      exact Option.noConfusion hmus
    · by_cases hc : (s1.musicPlaying && !m.isPlaying) = true
      · simp only [if_pos hc]
        intro music _ _
        have := (Bool.and_eq_true _ _).mp hc
        exact this.1
      · simp only [if_neg hc]
        intro music hmus hplay
        rw [hp]
        exact h music (hb ▸ hmus) hplay
  unfold resumeAudioContext
  rcases hl : s.audioListener with _ | _ | _
  · exact key s rfl rfl
  · exact key s rfl rfl
  · exact key { s with audioListener := some false } rfl rfl

theorem playHoverSound_music (vol : HoverArg) (s : State) :
    (playHoverSound vol s).state.bgMusic = (resumeAudioContext s).bgMusic ∧
    (playHoverSound vol s).state.musicPlaying = (resumeAudioContext s).musicPlaying := by
  simp only [playHoverSound]
  rcases (resumeAudioContext s).sfxHover with _ | hover
  · exact ⟨rfl, rfl⟩
  · by_cases hc : ((resumeAudioContext s).soundEnabled && hover.buffer) = true
    · simp only [if_pos hc]
      rcases vol.orDefault.toFloat with _ | v <;> exact ⟨rfl, rfl⟩
    · simp only [if_neg hc, and_self]

/-- Every event but the load callback of the music asset keeps the music
silent while `musicPlaying` is false. -/
theorem handle_music (env : Env) (e : Event) (s : State) (he : e ≠ Event.musicLoaded)
    (h : MusicFollowsToggle s) : MusicFollowsToggle (handle env e s).state := by
  have hr := resumeAudioContext_music s h
  cases e with
  | frame d t =>
    intro music hmus hplay
    obtain ⟨h1, h2⟩ := animate_music env d t s
    simp only [handle] at hmus ⊢
    rw [h1] at hmus
    rw [h2]
    exact h music hmus hplay
  | fireTronBeam =>
    intro music hmus hplay
    simp only [handle, fireTronBeam] at hmus ⊢
    rcases hb : s.sfxBeam with _ | b <;> rcases ht : s.tronBeam with _ | o <;>
      cases hs : s.soundEnabled <;> simp [hb, ht, hs] at hmus ⊢ <;> exact h music hmus hplay
  | beamFadeOut =>
    intro music hmus hplay
    simp only [handle, beamFadeOut] at hmus ⊢
    rcases ht : s.tronBeam with _ | o <;> simp [ht] at hmus ⊢ <;> exact h music hmus hplay
  | toggleMusic =>
    intro music hmus hplay
    simp only [handle, toggleMusic] at hmus ⊢
    rcases hm : s.bgMusic with _ | m
    · simp [hm] at hmus
    · cases hp : s.musicPlaying
      · simp [hm, hp]
      · simp [hm, hp, Audio.pause] at hmus
        rw [← hmus] at hplay
        simp at hplay
  | toggleSound =>
    intro music hmus hplay
    simp only [handle, toggleSound] at hmus ⊢
    split_ifs at hmus ⊢ <;> exact h music hmus hplay
  | playHoverSound vol =>
    intro music hmus hplay
    obtain ⟨k1, k2⟩ := playHoverSound_music vol s
    simp only [handle] at hmus ⊢
    rw [k1] at hmus
    rw [k2]
    exact hr music hmus hplay
  | resumeAudioContext => exact hr
  | musicLoaded => exact absurd rfl he
  | beamLoaded =>
    intro music hmus hplay
    simp only [handle, beamLoaded] at hmus ⊢
    rcases hb : s.sfxBeam with _ | b <;> simp [hb] at hmus ⊢ <;> exact h music hmus hplay
  | hoverLoaded =>
    intro music hmus hplay
    simp only [handle, hoverLoaded] at hmus ⊢
    rcases hb : s.sfxHover with _ | b <;> simp [hb] at hmus ⊢ <;> exact h music hmus hplay
  | musicEnded =>
    intro music hmus hplay
    simp only [handle] at hmus ⊢
    rcases hm : s.bgMusic with _ | m
    · simp [hm] at hmus
    · simp [hm, Audio.ended] at hmus
      rw [← hmus] at hplay
      simp at hplay
  | beamEnded =>
    intro music hmus hplay
    exact h music hmus hplay
  | hoverEnded =>
    intro music hmus hplay
    exact h music hmus hplay

/-- C12 (the code departs from it): the state `init` leaves has
`musicPlaying = true` and the music not playing; a click on the music button
(`toggleMusic`) followed by the load callback of the music asset reaches a
state where `musicPlaying` is false and `bgMusic.isPlaying` is true, since the
callback calls `bgMusic.play()` without reading `musicPlaying`. -/
theorem music_load_ignores_toggle :
    bootState.musicPlaying = true ∧
    (∃ music, bootState.bgMusic = some music ∧ music.isPlaying = false) ∧
    MusicFollowsToggle bootState ∧
    Reachable sampleEnv toggledThenLoaded ∧
    toggledThenLoaded.musicPlaying = false ∧
    (∃ music, toggledThenLoaded.bgMusic = some music ∧ music.isPlaying = true) ∧
    ¬ MusicFollowsToggle toggledThenLoaded := by
  obtain ⟨h1, _, _, h4, _, _⟩ := init_audio sampleEnv sampleInput sampleButton sampleButton
  have hb : bootState.bgMusic = some {} := h1
  have hm : bootState.musicPlaying = true := h4
  have hflag : toggledThenLoaded.musicPlaying = false := by
    simp [toggledThenLoaded, musicLoaded, toggleMusic, hb, hm]
  have hplay : ∃ music, toggledThenLoaded.bgMusic = some music ∧ music.isPlaying = true := by
    simp [toggledThenLoaded, musicLoaded, toggleMusic, hb, hm, Audio.play]
  refine ⟨hm, ⟨_, hb, rfl⟩, ?_, ?_, hflag, hplay, ?_⟩
  · intro music hmus hp
    exact hm
  · exact Reachable.step Event.musicLoaded _
      (Reachable.step Event.toggleMusic _
        (Reachable.boot sampleButton sampleButton sampleInput))
  · intro hinv
    obtain ⟨music, hmus, hp⟩ := hplay
    have := hinv music hmus hp
    rw [hflag] at this
    exact Bool.noConfusion this

end Retro3d
